import Mathlib

/-!
Verification development for the conversational strategy agent.

Shallow embedding of the repository's core modules:
 * `modules/guardrail.py`      — heuristic safety gate (`check_query` / `check_result`)
 * `modules/conversation_indexer.py` — semantic memory (insert / search / persistence)
 * `modules/historical_check.py` — historical pre-check disposition
 * `core/loop.py`              — the bounded plan/execute task loop (`AgentLoop.run`)

Strings are modelled as `List Char`.  Python regular expressions are modelled
by a small backtracking matcher (`RE` / `reM`) with Python `re` semantics:
leftmost match, preference-order alternation, greedy and lazy stars, word
boundaries, optional case-insensitivity, `.` not matching newline unless
DOTALL.  External collaborators (LLM backend, planner, sandbox executor,
embedding service, tool dispatcher) are oracles passed as function arguments;
a call that may raise is modelled with `Option` (`none` = exception).
-/

set_option maxRecDepth 40000

namespace Agent

/-- Characters Python `str.split()` / `str.strip()` treat as whitespace. -/
def pySpaceChars : List Char := [' ', '\t', '\n', '\r', Char.ofNat 11, Char.ofNat 12]

def isPySpace (c : Char) : Bool := pySpaceChars.contains c

/-- Python `\w` (ASCII range, as used by the repository's inputs). -/
def isWordChar (c : Char) : Bool := c.isAlphanum || c == '_'

/-- The apostrophe character (ASCII 39), used in pattern and prompt text. -/
def sq : Char := Char.ofNat 39

/-- The backtick character (ASCII 96). -/
def bt : Char := Char.ofNat 96

/-- Opening brace (ASCII 123). -/
def obr : Char := Char.ofNat 123

/-- Closing brace (ASCII 125). -/
def cbr : Char := Char.ofNat 125

/-- Python `needle in hay` substring test. -/
def containsSub (needle hay : List Char) : Bool :=
  match hay with
  | [] => needle.isEmpty
  | _ :: t => needle.isPrefixOf hay || containsSub needle t

/-- Python `str.startswith`. -/
def startsW (p s : List Char) : Bool := p.isPrefixOf s

/-- Python `str.lower()` (ASCII). -/
def lowerL (s : List Char) : List Char := s.map Char.toLower

/-- Python `str.strip()` (default whitespace). -/
def pyStrip (s : List Char) : List Char :=
  ((s.dropWhile isPySpace).reverse.dropWhile isPySpace).reverse

/-- Python `str.strip(chars)`. -/
def pyStripChars (cs : List Char) (s : List Char) : List Char :=
  ((s.dropWhile cs.contains).reverse.dropWhile cs.contains).reverse

/-- Python `str.split()` (split on whitespace runs, dropping empty pieces). -/
def pySplitWs (s : List Char) : List (List Char) :=
  (s.splitOnP isPySpace).filter (fun w => !w.isEmpty)

/-- `sep.join pieces` with a separator list. -/
def joinWith (sep : List Char) (pieces : List (List Char)) : List Char :=
  match pieces with
  | [] => []
  | [p] => p
  | p :: rest => p ++ sep ++ joinWith sep rest

/-- Python `str.split(sep)` for a non-empty separator (non-overlapping, left to right). -/
def pySplitOn (sep : List Char) (s : List Char) : List (List Char) :=
  go s.length [] s
where
  go : Nat → List Char → List Char → List (List Char)
  | _, acc, [] => [acc.reverse]
  | 0, acc, rest => [acc.reverse ++ rest]
  | fuel + 1, acc, c :: t =>
    if sep.isPrefixOf (c :: t) then
      acc.reverse :: go fuel [] ((c :: t).drop sep.length)
    else
      go fuel (c :: acc) t

/-- Python `str.replace(pat, repl)` (all non-overlapping occurrences, left to right). -/
def pyReplace (pat repl s : List Char) : List Char :=
  if pat.isEmpty then s else joinWith repl (pySplitOn pat s)

/-- Python `str.find(needle, start)`: index of first occurrence at or after `start`. -/
def pyFind (needle hay : List Char) (start : Nat) : Option Nat :=
  go (hay.drop start) start
where
  go : List Char → Nat → Option Nat
  | [], i => if needle.isEmpty then some i else none
  | c :: t, i => if needle.isPrefixOf (c :: t) then some i else go t (i + 1)

/-- Decimal rendering of a natural number (Python `str(n)` / f-string interpolation). -/
def natChars (n : Nat) : List Char := (toString n).toList

end Agent

namespace Agent

/-! ### A small regex matcher with Python `re` semantics

Only the constructs used by `modules/guardrail.py` and `core/loop.py` are
modelled: literal characters, character classes (possibly negated), `.`
(with or without DOTALL), concatenation, preference-order alternation,
greedy `*` and lazy `*?`, and the word boundary `\b`.  Matching is
backtracking with Python preference order (leftmost position, left
alternative first, greedy star consumes as much as possible first); `fuel`
bounds the recursion depth of star unfolding. -/

inductive RE where
  | eps
  | chr (c : Char)
  | cls (set : List Char) (neg : Bool)
  | dot (dotall : Bool)
  | seq (a b : RE)
  | alt (a b : RE)
  | star (a : RE)
  | starL (a : RE)
  | wb
deriving Repr, DecidableEq

/-- Regex `a?` (greedy). -/
def RE.opt (a : RE) : RE := RE.alt a RE.eps

/-- Regex `a+` (greedy). -/
def RE.plus (a : RE) : RE := RE.seq a (RE.star a)

/-- A regex matching a literal character sequence. -/
def RE.strPat (s : List Char) : RE := s.foldr (fun c r => RE.seq (RE.chr c) r) RE.eps

/-- A regex matching nothing (empty alternation). -/
def RE.fail : RE := RE.cls [] false

/-- `a{n}`: exactly n repetitions. -/
def RE.rep : Nat → RE → RE
  | 0, _ => RE.eps
  | n + 1, a => RE.seq a (RE.rep n a)

/-- `a{n,}`: at least n repetitions (greedy). -/
def RE.repAtLeast (n : Nat) (a : RE) : RE := RE.seq (RE.rep n a) (RE.star a)

/-- Preference-order alternation of a list of regexes. -/
def RE.altList : List RE → RE
  | [] => RE.fail
  | [r] => r
  | r :: rest => RE.alt r (RE.altList rest)

/-- Character comparison, optionally case-insensitive (re.IGNORECASE). -/
def cmpc (ci : Bool) (a b : Char) : Bool :=
  if ci then a.toLower == b.toLower else a == b

/-- Class membership, optionally case-insensitive. -/
def inCls (ci : Bool) (c : Char) (set : List Char) : Bool :=
  set.any (fun d => cmpc ci c d)

def isWordO : Option Char → Bool
  | some c => isWordChar c
  | none => false

/-- Python `\b`: word-ness differs between the previous character and the next. -/
def atBoundary (prev : Option Char) (s : List Char) : Bool :=
  isWordO prev != (match s with | [] => false | c :: _ => isWordChar c)

/-- Structural size of a regex (used for the fuel bound). -/
def RE.sz : RE → Nat
  | .eps => 1
  | .chr _ => 1
  | .cls _ _ => 1
  | .dot _ => 1
  | .wb => 1
  | .seq a b => a.sz + b.sz + 1
  | .alt a b => a.sz + b.sz + 1
  | .star a => a.sz + 1
  | .starL a => a.sz + 1

/-- Backtracking matcher in continuation style.  `prev` is the character just
before the current position (for `\b`), `k` receives the new previous
character and the remaining input; the first success in Python preference
order is returned.  `fuel` decreases at each star unfolding. -/
def reM (ci : Bool) (fuel : Nat) (r : RE) (prev : Option Char) (s : List Char)
    (k : Option Char → List Char → Option (List Char)) : Option (List Char) :=
  match fuel with
  | 0 => none
  | fuel + 1 =>
    match r with
    | .eps => k prev s
    | .chr c =>
      match s with
      | [] => none
      | x :: t => if cmpc ci c x then k (some x) t else none
    | .cls set neg =>
      match s with
      | [] => none
      | x :: t => if (if neg then !(inCls ci x set) else inCls ci x set) then k (some x) t else none
    | .dot dotall =>
      match s with
      | [] => none
      | x :: t => if dotall || x != '\n' then k (some x) t else none
    | .seq a b => reM ci fuel a prev s (fun p2 s2 => reM ci fuel b p2 s2 k)
    | .alt a b =>
      match reM ci fuel a prev s k with
      | some res => some res
      | none => reM ci fuel b prev s k
    | .wb => if atBoundary prev s then k prev s else none
    | .star a =>
      match reM ci fuel a prev s (fun p2 s2 => reM ci fuel (RE.star a) p2 s2 k) with
      | some res => some res
      | none => k prev s
    | .starL a =>
      match k prev s with
      | some res => some res
      | none => reM ci fuel a prev s (fun p2 s2 => reM ci fuel (RE.starL a) p2 s2 k)

/-- Call-depth fuel that is ample for any match attempt of `r` on `s`: between
two character consumptions the matcher can descend at most the structural size
of the pattern, so depth is below `(|s|+1) * (sz+1)`. -/
def reFuel (r : RE) (s : List Char) : Nat := (s.length + 1) * (r.sz + 1) + 1

/-- Try to match `r` at the current position; returns (matched, rest). -/
def reTryAt (ci : Bool) (r : RE) (prev : Option Char) (s : List Char) :
    Option (List Char × List Char) :=
  match reM ci (reFuel r s) r prev s (fun _ rest => some rest) with
  | none => none
  | some rest => some (s.take (s.length - rest.length), rest)

/-- Leftmost search: returns (before, matched, after) for the first position
at which `r` matches (Python `re.search`). -/
def reSearchAux (ci : Bool) (r : RE) :
    Option Char → List Char → List Char → Option (List Char × List Char × List Char)
  | prev, preRev, [] =>
    match reTryAt ci r prev [] with
    | some (m, rest) => some (preRev.reverse, m, rest)
    | none => none
  | prev, preRev, c :: t =>
    match reTryAt ci r prev (c :: t) with
    | some (m, rest) => some (preRev.reverse, m, rest)
    | none => reSearchAux ci r (some c) (c :: preRev) t

def reSearch (ci : Bool) (r : RE) (s : List Char) :
    Option (List Char × List Char × List Char) :=
  reSearchAux ci r none [] s

/-- Python `re.search(r, s) is not None`. -/
def reTest (ci : Bool) (r : RE) (s : List Char) : Bool := (reSearch ci r s).isSome

/-- One scan step of `re.sub`, with a replacement function of the match text.
The embedded patterns never produce empty matches; for safety an empty match
emits the replacement and advances one character. -/
def reSubAux (ci : Bool) (r : RE) (repl : List Char → List Char) :
    Nat → Option Char → List Char → List Char
  | 0, _, s => s
  | fuel + 1, prev, s =>
    match reTryAt ci r prev s with
    | some (m, rest) =>
      if m.isEmpty then
        match rest with
        | [] => repl []
        | c :: t => repl [] ++ c :: reSubAux ci r repl fuel (some c) t
      else
        repl m ++ reSubAux ci r repl fuel (m.getLastD ' ') rest
    | none =>
      match s with
      | [] => []
      | c :: t => c :: reSubAux ci r repl fuel (some c) t

/-- Python `re.sub(r, repl, s)` for a constant or match-dependent replacement. -/
def reSub (ci : Bool) (r : RE) (repl : List Char → List Char) (s : List Char) : List Char :=
  reSubAux ci r repl (s.length + 1) none s

/-- All non-overlapping matches, left to right (Python `re.findall` for
patterns whose whole match is returned). -/
def reFindAllAux (ci : Bool) (r : RE) :
    Nat → Option Char → List Char → List (List Char)
  | 0, _, _ => []
  | fuel + 1, prev, s =>
    match reTryAt ci r prev s with
    | some (m, rest) =>
      if m.isEmpty then
        match rest with
        | [] => [m]
        | c :: t => m :: reFindAllAux ci r fuel (some c) t
      else
        m :: reFindAllAux ci r fuel (m.getLastD ' ') rest
    | none =>
      match s with
      | [] => []
      | c :: t => reFindAllAux ci r fuel (some c) t

def reFindAll (ci : Bool) (r : RE) (s : List Char) : List (List Char) :=
  reFindAllAux ci r (s.length + 1) none s

/-- Number of non-overlapping matches (`len(re.findall(r, s))`). -/
def reCount (ci : Bool) (r : RE) (s : List Char) : Nat := (reFindAll ci r s).length

end Agent

namespace Agent

/-! ### Character classes used by the guardrail patterns -/

def digitChars : List Char := "0123456789".toList

def lowerChars : List Char := "abcdefghijklmnopqrstuvwxyz".toList

def upperChars : List Char := "ABCDEFGHIJKLMNOPQRSTUVWXYZ".toList

def alphaChars : List Char := upperChars ++ lowerChars

def hexChars : List Char := digitChars ++ "ABCDEFabcdef".toList

/-- `\d` -/
def RE.d : RE := RE.cls digitChars false

/-- `\s` -/
def RE.sp : RE := RE.cls pySpaceChars false

/-- `\w` -/
def RE.w : RE := RE.cls (alphaChars ++ digitChars ++ ['_']) false

/-- `.` without DOTALL. -/
def RE.any : RE := RE.dot false

/-- Concatenation of a list of regexes. -/
def reCat (l : List RE) : RE := l.foldr RE.seq RE.eps

/-- `\bw\b` for a literal word. -/
def wordPat (w : String) : RE := reCat [RE.wb, RE.strPat w.toList, RE.wb]

/-- `\b(w1|w2|...)\b` for literal alternatives. -/
def wordAlt (ws : List String) : RE :=
  reCat [RE.wb, RE.altList (ws.map (fun w => RE.strPat w.toList)), RE.wb]

/-! ### modules/guardrail.py — pattern battery (Guardrail.__init__) -/

/-- Heuristic 1: `banned_words`. -/
def banned_words : List (List Char) :=
  (["hack", "exploit", "bypass", "crack", "illegal",
    "malware", "virus", "phishing", "scam", "fraud"]).map String.toList

/-- Heuristic 2: `profanity_patterns` (searched and substituted with IGNORECASE). -/
def profanity_patterns : List RE :=
  [ wordAlt ["f**k", "fuck", "f**king", "fucking"],
    wordAlt ["sh*t", "shit", "sh**ing", "shitting"],
    wordAlt ["a**hole", "asshole", "a**"],
    wordAlt ["b**ch", "bitch", "b****"],
    wordAlt ["damn", "hell", "bastard", "piss", "pissed"],
    wordAlt ["crap", "c**p", "d**n"] ]

/-- `\b\d{3}-\d{2}-\d{4}\b` (SSN). -/
def ssnRE : RE :=
  reCat [RE.wb, RE.rep 3 RE.d, RE.chr '-', RE.rep 2 RE.d, RE.chr '-', RE.rep 4 RE.d, RE.wb]

/-- `\b\d{4}[\s-]?\d{4}[\s-]?\d{4}[\s-]?\d{4}\b` (credit card). -/
def creditCardRE : RE :=
  let sep := RE.opt (RE.cls (pySpaceChars ++ ['-']) false)
  reCat [RE.wb, RE.rep 4 RE.d, sep, RE.rep 4 RE.d, sep, RE.rep 4 RE.d, sep, RE.rep 4 RE.d, RE.wb]

/-- `\b[A-Za-z0-9._%+-]+@[A-Za-z0-9.-]+\.[A-Z|a-z]{2,}\b` (email). -/
def emailRE : RE :=
  reCat [RE.wb,
         RE.plus (RE.cls (alphaChars ++ digitChars ++ "._%+-".toList) false),
         RE.chr '@',
         RE.plus (RE.cls (alphaChars ++ digitChars ++ ".-".toList) false),
         RE.chr '.',
         RE.repAtLeast 2 (RE.cls (upperChars ++ ['|'] ++ lowerChars) false),
         RE.wb]

/-- `\b\d{3}[-.]?\d{3}[-.]?\d{4}\b` (US phone). -/
def phoneRE : RE :=
  let sep := RE.opt (RE.cls ['-', '.'] false)
  reCat [RE.wb, RE.rep 3 RE.d, sep, RE.rep 3 RE.d, sep, RE.rep 4 RE.d, RE.wb]

/-- Heuristic 4: `sql_injection_patterns` (searched and substituted with IGNORECASE). -/
def sql_injection_patterns : List RE :=
  let kws : List String :=
    ["OR", "AND", "UNION", "SELECT", "INSERT", "DELETE", "DROP", "EXEC", "EXECUTE"]
  [ reCat [RE.alt (wordPat "OR") (wordPat "AND"), RE.star RE.any, RE.chr '=', RE.star RE.any],
    RE.altList [wordPat "UNION", wordPat "SELECT", wordPat "INSERT", wordPat "DELETE",
                wordPat "DROP"],
    reCat [RE.chr sq, RE.star RE.sp, RE.altList (kws.map (fun w => RE.strPat w.toList))],
    reCat [RE.altList (kws.map (fun w => RE.strPat w.toList)), RE.star RE.sp, RE.chr sq],
    reCat [RE.chr sq, RE.star RE.sp, RE.chr '=', RE.star RE.sp, RE.chr sq],
    reCat [RE.chr sq, RE.star RE.sp, RE.strPat "OR".toList, RE.star RE.sp, RE.chr sq],
    reCat [RE.chr sq, RE.star RE.sp, RE.strPat "AND".toList, RE.star RE.sp, RE.chr sq],
    reCat [RE.chr ';', RE.star RE.sp, RE.alt (RE.strPat "--".toList) (RE.strPat "/*".toList)],
    reCat [RE.cls ['='] false, RE.star RE.sp, RE.strPat "--".toList],
    reCat [RE.strPat "/*".toList, RE.star RE.any, RE.strPat "*/".toList],
    RE.alt (wordPat "EXEC") (wordPat "EXECUTE") ]

/-- `[;&|`]\s*\w+` — shell metacharacters followed by a word. -/
def cmdMeta : RE := reCat [RE.cls [';', '&', '|', bt] false, RE.star RE.sp, RE.plus RE.w]

/-- `\b(cat|ls|rm|mv|cp|chmod|sudo)\s+` — common shell commands. -/
def cmdShellWords : RE :=
  reCat [RE.wb,
         RE.altList (["cat", "ls", "rm", "mv", "cp", "chmod", "sudo"].map
           (fun w => RE.strPat w.toList)),
         RE.plus RE.sp]

/-- `(\|\||&&)` — command chaining operators. -/
def cmdChain : RE := RE.alt (RE.strPat "||".toList) (RE.strPat "&&".toList)

/-- `` `[^`]+` `` — backtick command execution. -/
def cmdBacktick : RE := reCat [RE.chr bt, RE.plus (RE.cls [bt] true), RE.chr bt]

/-- `\$\([^)]+\)` — command substitution. -/
def cmdDollar : RE := reCat [RE.chr '$', RE.chr '(', RE.plus (RE.cls [')'] true), RE.chr ')']

/-- `;\s*(cat|ls|rm|mv|cp|chmod|sudo|wget|curl)` — semicolon followed by a command. -/
def cmdSemi : RE :=
  reCat [RE.chr ';', RE.star RE.sp,
         RE.altList (["cat", "ls", "rm", "mv", "cp", "chmod", "sudo", "wget", "curl"].map
           (fun w => RE.strPat w.toList))]

/-- Heuristic 5: `command_injection_patterns` in source order. -/
def command_injection_patterns : List RE :=
  [cmdMeta, cmdShellWords, cmdChain, cmdBacktick, cmdDollar, cmdSemi]

/-- Heuristic 6: `https?://[^\s<>"{}|\\^`\[\]]+` (compiled with IGNORECASE). -/
def urlRE : RE :=
  reCat [RE.strPat "http".toList, RE.opt (RE.chr 's'), RE.strPat "://".toList,
         RE.plus (RE.cls (pySpaceChars ++ ['<', '>', '"', obr, cbr, '|', '\\', '^', bt, '[', ']'])
           true)]

/-- Heuristic 7: `sensitive_paths` (as regexes, searched with IGNORECASE). -/
def sensitive_paths : List RE :=
  [ RE.strPat "/etc/passwd".toList,
    RE.strPat "/etc/shadow".toList,
    RE.strPat "C:\\Windows\\System32".toList,
    RE.strPat "../../".toList ]

/-- Heuristic 9: `encoding_patterns` (no flags). -/
def encoding_patterns : List RE :=
  [ reCat [RE.chr '%', RE.rep 2 (RE.cls hexChars false)],
    reCat [RE.chr '\\', RE.chr 'x', RE.rep 2 (RE.cls hexChars false)],
    reCat [RE.chr '\\', RE.chr 'u', RE.rep 4 (RE.cls hexChars false)] ]

/-- Heuristic 10: `script_patterns` (IGNORECASE | DOTALL). -/
def script_patterns : List RE :=
  [ reCat [RE.strPat "<script".toList, RE.star (RE.cls ['>'] true), RE.chr '>',
           RE.starL (RE.dot true), RE.strPat "</script>".toList],
    RE.strPat "javascript:".toList,
    reCat [RE.strPat "onerror".toList, RE.star RE.sp, RE.chr '='],
    reCat [RE.strPat "onclick".toList, RE.star RE.sp, RE.chr '='] ]

end Agent

namespace Agent

/-! ### modules/guardrail.py — helper methods -/

/-- Characters stripped from a word before the banned-word comparison
(Python `word.lower().strip('.,!?;:()[]{}"\'')`). -/
def bannedStripChars : List Char :=
  ['.', ',', '!', '?', ';', ':', '(', ')', '[', ']', obr, cbr, '"', sq]

/-- `Guardrail._remove_banned_words`. -/
def removeBannedWords (text : List Char) : List Char × Bool :=
  let words := pySplitWs text
  let found := words.any (fun w => banned_words.contains (pyStripChars bannedStripChars (lowerL w)))
  let sanitizedWords := words.map (fun w =>
    if banned_words.contains (pyStripChars bannedStripChars (lowerL w)) then
      "[REDACTED]".toList
    else w)
  (joinWith [' '] sanitizedWords, found)

/-- `Guardrail._contains_profanity` (IGNORECASE search). -/
def containsProfanity (text : List Char) : Bool :=
  profanity_patterns.any (fun p => reTest true p text)

/-- `Guardrail._sanitize_profanity` (IGNORECASE sub, patterns in order). -/
def sanitizeProfanity (text : List Char) : List Char :=
  profanity_patterns.foldl (fun t p => reSub true p (fun _ => "[REDACTED]".toList) t) text

/-- `Guardrail._detect_pii`: dict iteration order ssn, credit_card, email, phone;
type names are upper-cased. -/
def detectPii (text : List Char) : List (List Char) :=
  (if reTest false ssnRE text then ["SSN".toList] else []) ++
  (if reTest false creditCardRE text then ["CREDIT_CARD".toList] else []) ++
  (if reTest false emailRE text then ["EMAIL".toList] else []) ++
  (if reTest false phoneRE text then ["PHONE".toList] else [])

/-- `Guardrail._sanitize_pii`: substitute SSN, credit card, email (keeping the
domain after `@`), then phone, in that order. -/
def sanitizePii (text : List Char) : List Char :=
  let t1 := reSub false ssnRE (fun _ => "[SSN REDACTED]".toList) text
  let t2 := reSub false creditCardRE (fun _ => "[CARD REDACTED]".toList) t1
  let t3 := reSub false emailRE
    (fun m => "[EMAIL: ".toList ++ ((pySplitOn ['@'] m).getD 1 []) ++ "]".toList) t2
  reSub false phoneRE (fun _ => "[PHONE REDACTED]".toList) t3

/-- `Guardrail._contains_sql_injection` (IGNORECASE). -/
def containsSqlInjection (text : List Char) : Bool :=
  sql_injection_patterns.any (fun p => reTest true p text)

/-- `Guardrail._sanitize_sql_injection` (IGNORECASE sub, patterns in order). -/
def sanitizeSqlInjection (text : List Char) : List Char :=
  sql_injection_patterns.foldl (fun t p => reSub true p (fun _ => "[SQL PATTERN REMOVED]".toList) t) text

/-- `Guardrail._contains_command_injection`: lenient when URLs are present —
the metacharacter pattern is skipped, the five command-like patterns still hit. -/
def containsCommandInjection (text : List Char) : Bool :=
  let hasUrls := reTest true urlRE text
  go hasUrls command_injection_patterns
where
  go (hasUrls : Bool) : List RE → Bool
  | [] => false
  | p :: rest =>
    if reTest true p text then
      if hasUrls then
        if [cmdShellWords, cmdChain, cmdBacktick, cmdDollar, cmdSemi].contains p then true
        else if p == cmdMeta then go hasUrls rest
        else true
      else true
    else go hasUrls rest

/-- `Guardrail._sanitize_command_injection` (sub without flags: case-sensitive). -/
def sanitizeCommandInjection (text : List Char) : List Char :=
  command_injection_patterns.foldl
    (fun t p => reSub false p (fun _ => "[COMMAND PATTERN REMOVED]".toList) t) text

/-- `Guardrail._extract_urls` (findall with the compiled IGNORECASE pattern). -/
def extractUrls (text : List Char) : List (List Char) := reFindAll true urlRE text

/-- `Guardrail._is_safe_url`. -/
def isSafeUrl (url : List Char) : Bool :=
  !(["malware.com", "phishing.com"].map String.toList).any (fun d => containsSub d (lowerL url))

/-- `Guardrail._contains_sensitive_paths` (IGNORECASE). -/
def containsSensitivePaths (text : List Char) : Bool :=
  sensitive_paths.any (fun p => reTest true p text)

/-- `Guardrail._sanitize_paths` (IGNORECASE sub, patterns in order). -/
def sanitizePaths (text : List Char) : List Char :=
  sensitive_paths.foldl (fun t p => reSub true p (fun _ => "[PATH REDACTED]".toList) t) text

/-- `Guardrail._contains_suspicious_encoding`: any pattern with more than 5 matches. -/
def containsSuspiciousEncoding (text : List Char) : Bool :=
  encoding_patterns.any (fun p => reCount false p text > 5)

/-- `Guardrail._decode_suspicious_encoding`: returns the text unchanged (warn only). -/
def decodeSuspiciousEncoding (text : List Char) : List Char := text

/-- `Guardrail._contains_script_injection` (IGNORECASE | DOTALL). -/
def containsScriptInjection (text : List Char) : Bool :=
  script_patterns.any (fun p => reTest true p text)

/-- `Guardrail._sanitize_scripts` (IGNORECASE | DOTALL sub, patterns in order). -/
def sanitizeScripts (text : List Char) : List Char :=
  script_patterns.foldl (fun t p => reSub true p (fun _ => "[SCRIPT REMOVED]".toList) t) text

end Agent

namespace Agent

/-! ### modules/guardrail.py — check_query / check_result pipelines

Both checks are straight-line pipelines over a running state
(sanitized text, warnings, blocked flag, reason); each stage below is one
numbered heuristic block of the source, applied in source order. -/

structure GState where
  text : List Char
  warnings : List (List Char)
  blocked : Bool
  reason : Option (List Char)
deriving Repr, DecidableEq

def gInit (t : List Char) : GState := ⟨t, [], false, none⟩

/-- `GuardrailResult` dataclass. -/
structure GuardrailResult where
  passed : Bool
  sanitized_content : List Char
  warnings : List (List Char)
  blocked : Bool
  reason : Option (List Char)
deriving Repr, DecidableEq

def finalizeG (st : GState) : GuardrailResult :=
  ⟨!st.blocked, st.text, st.warnings, st.blocked, st.reason⟩

/-- check_query heuristic 1: banned-word removal. -/
def qh1 (st : GState) : GState :=
  let r := removeBannedWords st.text
  { st with text := r.1,
            warnings := st.warnings ++
              if r.2 then ["Banned words detected and removed from query".toList] else [] }

/-- check_query heuristic 2: profanity. -/
def qh2 (st : GState) : GState :=
  if containsProfanity st.text then
    { st with warnings := st.warnings ++ ["Profanity detected in query".toList],
              text := sanitizeProfanity st.text }
  else st

/-- check_query heuristic 3: PII. -/
def qh3 (st : GState) : GState :=
  let pii := detectPii st.text
  if !pii.isEmpty then
    { st with warnings := st.warnings ++
        ["Potential PII detected in query: ".toList ++ joinWith ", ".toList pii],
              text := sanitizePii st.text }
  else st

/-- check_query heuristic 4: SQL injection — block. -/
def qh4 (st : GState) : GState :=
  if containsSqlInjection st.text then
    { st with blocked := true,
              reason := some "SQL injection pattern detected in query".toList,
              text := sanitizeSqlInjection st.text }
  else st

/-- check_query heuristic 5: command injection — block. -/
def qh5 (st : GState) : GState :=
  if containsCommandInjection st.text then
    { st with blocked := true,
              reason := some "Command injection pattern detected in query".toList,
              text := sanitizeCommandInjection st.text }
  else st

/-- check_query heuristic 6: URL validation (warn only). -/
def qh6 (st : GState) : GState :=
  let ws := ((extractUrls st.text).filter (fun u => !isSafeUrl u)).map
    (fun u => "Potentially unsafe URL detected: ".toList ++ u.take 50 ++ "...".toList)
  { st with warnings := st.warnings ++ ws }

/-- check_query heuristic 7: sensitive paths — block. -/
def qh7 (st : GState) : GState :=
  if containsSensitivePaths st.text then
    { st with blocked := true,
              reason := some "Sensitive file path detected in query".toList,
              text := sanitizePaths st.text }
  else st

/-- check_query heuristic 8: length cap (tested on the original query length). -/
def qh8 (origLen : Nat) (st : GState) : GState :=
  if origLen > 10000 then
    { st with warnings := st.warnings ++
        ["Query exceeds maximum length (10000 chars)".toList],
              text := st.text.take 10000 ++ "... [truncated]".toList }
  else st

/-- check_query heuristic 9: suspicious encoding (warn; decode keeps text). -/
def qh9 (st : GState) : GState :=
  if containsSuspiciousEncoding st.text then
    { st with warnings := st.warnings ++ ["Suspicious encoding patterns detected".toList],
              text := decodeSuspiciousEncoding st.text }
  else st

/-- check_query heuristic 10: script injection — block. -/
def qh10 (st : GState) : GState :=
  if containsScriptInjection st.text then
    { st with blocked := true,
              reason := some "Script injection pattern detected in query".toList,
              text := sanitizeScripts st.text }
  else st

/-- `Guardrail.check_query`. -/
def check_query (query : List Char) : GuardrailResult :=
  finalizeG (qh10 (qh9 (qh8 query.length (qh7 (qh6 (qh5 (qh4 (qh3 (qh2 (qh1 (gInit query)))))))))))

/-- check_result heuristic 1: banned-word removal. -/
def rh1 (st : GState) : GState :=
  let r := removeBannedWords st.text
  { st with text := r.1,
            warnings := st.warnings ++
              if r.2 then ["Banned words detected and removed from result".toList] else [] }

/-- check_result heuristic 2: profanity. -/
def rh2 (st : GState) : GState :=
  if containsProfanity st.text then
    { st with warnings := st.warnings ++ ["Profanity detected in result".toList],
              text := sanitizeProfanity st.text }
  else st

/-- check_result heuristic 3: PII — always sanitized on the outbound boundary. -/
def rh3 (st : GState) : GState :=
  let pii := detectPii st.text
  if !pii.isEmpty then
    { st with warnings := st.warnings ++
        ["PII detected in result: ".toList ++ joinWith ", ".toList pii],
              text := sanitizePii st.text }
  else st

/-- check_result heuristic 4: SQL injection — warn only, no sanitization. -/
def rh4 (st : GState) : GState :=
  if containsSqlInjection st.text then
    { st with warnings := st.warnings ++
        ["SQL injection pattern detected in result (may be false positive)".toList] }
  else st

/-- check_result heuristic 5: command injection — warn only, no sanitization. -/
def rh5 (st : GState) : GState :=
  if containsCommandInjection st.text then
    { st with warnings := st.warnings ++
        ["Command injection pattern detected in result (may be false positive in document content)".toList] }
  else st

/-- One iteration of check_result heuristic 6's URL loop. -/
def urlStepR (acc : GState) (u : List Char) : GState :=
  if !isSafeUrl u then
    let w := "Potentially unsafe URL in result: ".toList ++ u.take 50 ++ "...".toList
    { acc with warnings := acc.warnings ++ [w],
               text := pyReplace u "[URL REMOVED]".toList acc.text }
  else acc

/-- check_result heuristic 6: unsafe URLs are excised from the result. -/
def rh6 (st : GState) : GState :=
  (extractUrls st.text).foldl urlStepR st

/-- check_result heuristic 7: sensitive paths — warn and redact, never block. -/
def rh7 (st : GState) : GState :=
  if containsSensitivePaths st.text then
    { st with warnings := st.warnings ++ ["Sensitive file path detected in result".toList],
              text := sanitizePaths st.text }
  else st

/-- check_result heuristic 8: length cap (tested on the original result length). -/
def rh8 (origLen : Nat) (st : GState) : GState :=
  if origLen > 50000 then
    { st with warnings := st.warnings ++
        ["Result exceeds maximum length (50000 chars)".toList],
              text := st.text.take 50000 ++ "... [truncated]".toList }
  else st

/-- check_result heuristic 9: suspicious encoding (warn; decode keeps text). -/
def rh9 (st : GState) : GState :=
  if containsSuspiciousEncoding st.text then
    { st with warnings := st.warnings ++
        ["Suspicious encoding patterns detected in result".toList],
              text := decodeSuspiciousEncoding st.text }
  else st

/-- check_result heuristic 10: script injection — warn only. -/
def rh10 (st : GState) : GState :=
  if containsScriptInjection st.text then
    { st with warnings := st.warnings ++
        ["Script injection pattern detected in result (may be false positive in document content)".toList] }
  else st

/-- `Guardrail.check_result`. -/
def check_result (result : List Char) : GuardrailResult :=
  finalizeG (rh10 (rh9 (rh8 result.length (rh7 (rh6 (rh5 (rh4 (rh3 (rh2 (rh1 (gInit result)))))))))))

/-- The state reaching check_query heuristic 4 (where injection is tested). -/
def qStage3 (query : List Char) : GState := qh3 (qh2 (qh1 (gInit query)))

/-- The state reaching check_result heuristic 4. -/
def rStage3 (result : List Char) : GState := rh3 (rh2 (rh1 (gInit result)))

end Agent

namespace Agent

/-! ### modules/conversation_indexer.py — Semantic Memory

The FAISS flat-L2 index is modelled as the list of its stored vectors plus
its dimensionality (`ntotal` = number of stored vectors); the two persisted
files are an explicit filesystem record.  Embedding vectors use `Int`
coordinates (only lengths, counts and relative distance order matter to the
claims).  The external embedding service is an oracle `svc`; `none` models a
raised exception inside `requests.post` / response parsing. -/

structure IndexData where
  dim : Nat
  vecs : List (List Int)
deriving Repr, DecidableEq

/-- `faiss.Index.ntotal`. -/
def IndexData.ntotal (d : IndexData) : Nat := d.vecs.length

structure MetaEntry where
  session_id : List Char
  user_query : List Char
  final_answer : List Char
  tool_calls : List (List Char)
  timestamp : Int
  index_position : Nat
deriving Repr, DecidableEq, Inhabited

/-- The two persisted artifacts (`historical_conversation_index.bin`,
`historical_conversation_store.json`); `none` = file does not exist. -/
structure FS where
  indexFile : Option IndexData
  metadataFile : Option (List MetaEntry)
deriving Repr, DecidableEq

structure IndexerState where
  index : Option IndexData
  metadata : List MetaEntry
deriving Repr, DecidableEq

/-- `get_embedding`: on success the service vector, on any failure a zero
vector of the fixed nomic-embed-text dimension 768. -/
def get_embedding (svc : List Char → Option (List Int)) (text : List Char) : List Int :=
  match svc text with
  | some v => v
  | none => List.replicate 768 0

/-- `ConversationIndexer.load_index` (I/O succeeding; a load failure would
start empty, which is the `⟨none, []⟩` value). -/
def load_index (fs : FS) : IndexerState :=
  { index := fs.indexFile, metadata := fs.metadataFile.getD [] }

/-- `ConversationIndexer.save_index`: the index file is written only when an
index exists; the metadata file is always rewritten. -/
def save_index (st : IndexerState) (fs : FS) : FS :=
  { indexFile := match st.index with | some i => some i | none => fs.indexFile,
    metadataFile := some st.metadata }

/-- The searchable text built by `index_conversation`
(`f"{user_query}\n{final_answer}"` plus an optional tool summary). -/
def searchableText (user_query final_answer : List Char)
    (tool_calls : Option (List (List Char))) : List Char :=
  let base := user_query ++ ['\n'] ++ final_answer
  match tool_calls with
  | some l => if l.isEmpty then base else base ++ "\nTools used: ".toList ++ joinWith ", ".toList l
  | none => base

/-- `ConversationIndexer.index_conversation`: embed, lazily create the index
at the embedding's dimensionality, append to index and metadata, persist
both.  A dimension mismatch on `index.add` raises inside the `try`, is
caught, and leaves both structures unchanged. -/
def index_conversation (svc : List Char → Option (List Int))
    (st : IndexerState) (fs : FS)
    (session_id user_query final_answer : List Char)
    (tool_calls : Option (List (List Char))) (timestamp : Int) :
    IndexerState × FS :=
  let searchable := searchableText user_query final_answer tool_calls
  let embedding := get_embedding svc searchable
  let idx0 := match st.index with
    | some i => i
    | none => { dim := embedding.length, vecs := [] }
  if embedding.length ≠ idx0.dim then (st, fs)
  else
    let idx1 : IndexData := { dim := idx0.dim, vecs := idx0.vecs ++ [embedding] }
    let entry : MetaEntry :=
      { session_id := session_id, user_query := user_query, final_answer := final_answer,
        tool_calls := tool_calls.getD [], timestamp := timestamp,
        index_position := st.metadata.length }
    let st2 : IndexerState := { index := some idx1, metadata := st.metadata ++ [entry] }
    (st2, save_index st2 fs)

/-- `ConversationIndexer.get_conversation_count`. -/
def get_conversation_count (st : IndexerState) : Nat :=
  match st.index with
  | none => 0
  | some i => i.ntotal

/-- Squared L2 distance (what `IndexFlatL2` scores by). -/
def sqDist (a b : List Int) : Int :=
  (a.zip b).foldl (fun acc p => acc + (p.1 - p.2) * (p.1 - p.2)) 0

/-- Insertion into a list sorted by ascending distance. -/
def insertByDist (x : Nat × Int) : List (Nat × Int) → List (Nat × Int)
  | [] => [x]
  | y :: t => if x.2 ≤ y.2 then x :: y :: t else y :: insertByDist x t

def sortByDist (l : List (Nat × Int)) : List (Nat × Int) := l.foldr insertByDist []

/-- `faiss.IndexFlatL2.search`: the `k` nearest stored vectors as
(position, distance), ascending by distance. -/
def faissSearch (idx : IndexData) (q : List Int) (k : Nat) : List (Nat × Int) :=
  (sortByDist ((idx.vecs.enum).map (fun p => (p.1, sqDist q p.2)))).take k

structure SearchHit where
  meta : MetaEntry
  similarity_distance : Int
deriving Repr, DecidableEq

/-- `ConversationIndexer.search`: empty on a missing/empty index, `k` clamped
to the index size, any internal failure (modelled: a query-embedding shape
mismatch raising inside `index.search`) caught and returned as `[]`. -/
def searchConv (svc : List Char → Option (List Int))
    (st : IndexerState) (query : List Char) (top_k : Nat) : List SearchHit :=
  match st.index with
  | none => []
  | some idx =>
    if idx.ntotal = 0 then []
    else
      let q := get_embedding svc query
      if q.length ≠ idx.dim then []
      else
        (faissSearch idx q (min top_k idx.ntotal)).filterMap
          (fun p => if p.1 < st.metadata.length then
              some { meta := st.metadata.getD p.1 default, similarity_distance := p.2 }
            else none)

end Agent

namespace Agent

/-! ### modules/historical_check.py — Historical Pre-Check

`check_historical_conversations` is driven by two oracles: the outcome of the
`search_historical_conversations` tool call (`SearchOut`) and the LLM
judgment (`llm`; `none` = `generate_text` raised, landing in the outer
`except`, line 153).  The returned Python dicts carry different key sets per
path; absent keys are `none` (the caller reads them with `.get(..., False)`). -/

structure ConvRec where
  user_query : List Char
  final_answer : List Char
deriving Repr, DecidableEq

inductive SearchOut where
  /-- `mcp_dispatcher.call_tool` raised (outer `except`, line 153). -/
  | raised
  /-- falsy result or missing `content` attribute (line 39). -/
  | missing
  /-- JSON parsing of the tool result failed (line 46). -/
  | badParse
  /-- the parsed `"result"` list. -/
  | ok (data : List ConvRec)
deriving Repr, DecidableEq

structure HCResult where
  can_answer : Bool
  has_context : Option Bool := none
  context : Option (List Char) := none
  context_summary : Option (List Char) := none
  answer : Option (List Char) := none
deriving Repr, DecidableEq

/-- Error markers filtered at line 61. -/
def hcErrorMarkers : List (List Char) :=
  (["[max steps reached]", "[result blocked", "[error"]).map String.toList

def isErrorAnswer (a : List Char) : Bool :=
  hcErrorMarkers.any (fun e => containsSub e (lowerL a))

/-- One context item (lines 64-67). -/
def fmtConv (c : ConvRec) : List Char :=
  "Previous Q: ".toList ++ c.user_query ++ "\nPrevious A: ".toList ++ c.final_answer

/-- Lines 55-67: top five neighbors, skipping error-marked answers. -/
def contextItems (data : List ConvRec) : List (List Char) :=
  (data.take 5).foldl
    (fun acc c => if isErrorAnswer c.final_answer then acc else acc ++ [fmtConv c]) []

/-- `negative_indicators` (lines 127-138). -/
def negative_indicators : List (List Char) :=
  (["do not provide", "does not provide", "does not contain", "not provide",
    "not contain", "no information", "no relevant", "completely unrelated",
    "unrelated", "not relevant"]).map String.toList

/-- The judgment prompt (lines 77-111). -/
def decisionPromptHC (user_input historical_context : List Char) : List Char :=
  "You are analyzing whether a user".toList ++ [sq] ++
  "s question can be answered directly from previous conversation history, without needing any tools.\n\nUser".toList ++ [sq] ++
  "s current question: \"".toList ++ user_input ++
  "\"\n\nPrevious conversations:\n".toList ++ historical_context ++
  "\n\nYour task:\n1. Determine if the user".toList ++ [sq] ++
  "s question can be answered COMPLETELY and ACCURATELY from the previous conversations above.\n2. The answer must be:\n   - Directly available in the previous conversations\n   - Complete (not partial)\n   - Accurate (not requiring additional information)\n   - Relevant to the current question\n\n3. For comparison queries (e.g., \"compare X and Y\"), if information about both X and Y exists in the historical context, you can synthesize a comparison even if not explicitly stated.\n\nRespond with ONE of these options:\n\n1. If answer is COMPLETE and available:\n   FINAL_ANSWER: [your complete answer based on the previous conversations]\n\n2. If previous conversations have RELEVANT CONTEXT but answer is incomplete/needs tools:\n   HAS_CONTEXT: [brief summary of relevant context from previous conversations]\n\n3. If previous conversations are NOT RELEVANT or completely unrelated:\n   NO_CONTEXT\n\nExamples:\n- User asks \"what is my name?\" and previous says \"my name is John\" → FINAL_ANSWER: Based on our previous conversation, your name is John.\n- User asks \"compare Dhoni and Sachin\" and previous has info about both → FINAL_ANSWER: [synthesize comparison from available info]\n- User asks \"how much did Anmol pay?\" and previous mentions \"Anmol\" and \"DLF\" but no payment amount → HAS_CONTEXT: Previous conversations mention Anmol Singh and DLF apartment, but payment amount not found.\n- User asks \"what is the weather?\" and previous conversations don".toList ++ [sq] ++
  "t mention weather → NO_CONTEXT\n\nNow analyze the question and respond:".toList

/-- `check_historical_conversations`. -/
def check_historical_conversations (searchOut : SearchOut)
    (llm : List Char → Option (List Char)) (user_input : List Char) : HCResult :=
  match searchOut with
  | .raised => { can_answer := false, has_context := some false }
  | .missing => { can_answer := false }
  | .badParse => { can_answer := false }
  | .ok data =>
    if data.isEmpty then { can_answer := false }
    else
      let items := contextItems data
      if items.isEmpty then { can_answer := false }
      else
        let historical_context := joinWith "\n\n".toList items
        match llm (decisionPromptHC user_input historical_context) with
        | none => { can_answer := false, has_context := some false }
        | some resp0 =>
          let resp := pyStrip resp0
          if startsW "FINAL_ANSWER:".toList resp then
            { can_answer := true, answer := some resp }
          else if startsW "HAS_CONTEXT:".toList resp then
            let summary := pyStrip (pyReplace "HAS_CONTEXT:".toList [] resp)
            if negative_indicators.any (fun i => containsSub i (lowerL summary)) then
              { can_answer := false, has_context := some false }
            else
              { can_answer := false, has_context := some true,
                context := some historical_context, context_summary := some summary }
          else
            { can_answer := false, has_context := some false }

end Agent

namespace Agent

/-! ### core/loop.py — AgentLoop.run

The loop is a per-turn state machine: `max_steps` outer steps, each with an
inner retry loop of `max_lifelines_per_step + 1` iterations.  External
collaborators are the `LoopEnv` oracles; `generate_text` may raise (`none`).
`modules.tools.extract_python_code_block` is repository code outside the
analyzed core and is treated as an oracle as well (the loop re-validates its
output and falls back to the raw plan).  Memory writes
(`context.memory.add_tool_output`) are bookkeeping on the session store and
are not modelled; control-flow events relevant to the claims are recorded in
an event trace. -/

structure LoopEnv where
  /-- `run_perception` followed by `get_tools_from_servers`: whether any tool
  was selected for the effective input. -/
  hasTools : List Char → Bool
  /-- the `search_historical_conversations` tool call in the no-tools
  fallback; `none` = raised or unparseable. -/
  searchHist : List Char → Option (List ConvRec)
  /-- `ModelManager.generate_text`; `none` = raised. -/
  genText : List Char → Option (List Char)
  /-- `generate_plan` (step number, enriched user input). -/
  plan : Nat → List Char → List Char
  /-- `extract_python_code_block`. -/
  extract : List Char → List Char
  /-- `run_python_sandbox` on the extracted code. -/
  sandbox : List Char → List Char

structure LoopResult where
  status : List Char
  result : List Char
deriving Repr, DecidableEq

inductive Ev where
  /-- a `generate_plan` call. -/
  | planned
  /-- no-tools fallback returned a direct LLM answer (or its error answer). -/
  | fallbackAnswered
  /-- carried-content direct analysis (line 143) returned. -/
  | directAnalyzed
  /-- second-or-later FURTHER_PROCESSING_REQUIRED: direct LLM analysis
  returned, bypassing any further planning (lines 264-298). -/
  | escalatedNoPlan
  /-- a FURTHER_PROCESSING_REQUIRED result was forwarded via
  `user_input_override` to the next step (lines 304-326). -/
  | fprForwarded
deriving Repr, DecidableEq

inductive StepOut where
  /-- a `return` out of `run`. -/
  | ret (r : LoopResult)
  /-- inner loop left (break or lifelines exhausted); carried mutable state. -/
  | cont (override : Option (List Char)) (count : Nat)
deriving Repr, DecidableEq

def finalMarker : List Char := "FINAL_ANSWER:".toList

def fprMarker : List Char := "FURTHER_PROCESSING_REQUIRED:".toList

def carriedMarker : List Char := "Your last tool produced this result:".toList

def criticalMarker : List Char := "❗CRITICAL:".toList

/-- `user_input_override or self.context.user_input` (Python truthiness:
an empty override also falls back). -/
def effectiveInput (override : Option (List Char)) (userInput : List Char) : List Char :=
  match override with
  | some o => if o.isEmpty then userInput else o
  | none => userInput

/-- Strip then ensure the `FINAL_ANSWER:` prefix (lines 112-116, 180-182, 285-287). -/
def ensureFinal (t : List Char) : List Char :=
  let t2 := pyStrip t
  if startsW finalMarker t2 then t2 else "FINAL_ANSWER: ".toList ++ t2

/-- Content truncation to 50000 characters (lines 154-157 and 268-271). -/
def truncContent (content : List Char) : List Char :=
  if content.length > 50000 then
    content.take 50000 ++
      "\n\n[Content truncated - showing first 50000 characters of ".toList ++
      natChars content.length ++ " total]".toList
  else content

/-- The direct-analysis prompt template shared by lines 168-177 and 273-282. -/
def analysisPrompt (task content : List Char) : List Char :=
  "You are a helpful AI assistant. Analyze the following content and provide a clear, comprehensive answer to the user".toList ++ [sq] ++
  "s question.\n\nOriginal user task: ".toList ++ task ++
  "\n\nContent to analyze:\n".toList ++ content ++
  "\n\nYour task: Analyze this content and provide a clear, well-structured answer. If the user asked to summarize or explain, provide a comprehensive summary. If they asked a specific question, answer it based on the content.\n\nRespond with FINAL_ANSWER: [your analysis and answer]".toList

/-- One historical item of the no-tools fallback (lines 75-79). -/
def fmtLoopConv (c : ConvRec) : List Char :=
  "Previous conversation:\n  User: ".toList ++ c.user_query ++
  "\n  Assistant: ".toList ++ c.final_answer

/-- The no-tools fallback prompt (lines 91-108), with and without
historical context. -/
def fallbackPrompt (cui hist : List Char) : List Char :=
  if !hist.isEmpty then
    "You are a helpful AI assistant. The user asked: \"".toList ++ cui ++
    "\"\n\nThis query doesn".toList ++ [sq] ++
    "t require any tools - it".toList ++ [sq] ++
    "s a simple question or greeting that you can answer directly.\n\nHere are some relevant previous conversations for context:\n".toList ++ hist ++
    "\n\nPlease provide a helpful, concise response. If it".toList ++ [sq] ++
    "s a greeting, respond warmly. If it".toList ++ [sq] ++
    "s a question, answer it directly based on your knowledge and the context from previous conversations if relevant.\n\nYour response:".toList
  else
    "You are a helpful AI assistant. The user asked: \"".toList ++ cui ++
    "\"\n\nThis query doesn".toList ++ [sq] ++
    "t require any tools - it".toList ++ [sq] ++
    "s a simple question or greeting that you can answer directly.\n\nPlease provide a helpful, concise response. If it".toList ++ [sq] ++
    "s a greeting, respond warmly. If it".toList ++ [sq] ++
    "s a question, answer it directly based on your knowledge.\n\nYour response:".toList

/-- The `user_input_override` composed on a first FURTHER_PROCESSING_REQUIRED
(lines 304-310). -/
def overrideMsg (userInput content : List Char) : List Char :=
  "Original user task: ".toList ++ userInput ++
  "\n\nYour last tool produced this result:\n\n".toList ++ content ++
  "\n\n❗CRITICAL: Analyze the content above and return FINAL_ANSWER. DO NOT call any tools - the content is already provided!\n\nReturn: FINAL_ANSWER: [your analysis]".toList

/-- Historical-context enrichment of the planning input (lines 205-212). -/
def planInputOf (histCtx : Option (List Char)) (cur : List Char) : List Char :=
  match histCtx with
  | some hc =>
    if hc.isEmpty then cur
    else cur ++ "\n\nRelevant context from previous conversations:\n".toList ++ hc ++
      "\n\nUse this context to inform your tool selection and search strategy.".toList
  | none => cur

/-- `^\s*(async\s+)?def\s+solve\s*\(` (without the MULTILINE anchor). -/
def solveRE : RE :=
  reCat [RE.star RE.sp,
         RE.opt (reCat [RE.strPat "async".toList, RE.plus RE.sp]),
         RE.strPat "def".toList, RE.plus RE.sp, RE.strPat "solve".toList,
         RE.star RE.sp, RE.chr '(']

/-- `re.search(r"^\s*(async\s+)?def\s+solve\s*\(", plan, re.MULTILINE)`:
a match starting at the string start or just after any newline. -/
def hasSolvePlan (plan : List Char) : Bool :=
  (reTryAt false solveRE none plan).isSome || go plan
where
  go : List Char → Bool
  | [] => false
  | c :: t => (c == '\n' && (reTryAt false solveRE (some '\n') t).isSome) || go t

/-- Extraction of the carried-over content and original task from an input
containing `carriedMarker` (lines 145-165). -/
def extractCarried (cur userInput : List Char) : List Char × List Char :=
  let contentStart := (pyFind carriedMarker cur 0).getD 0 + carriedMarker.length
  let content0 := pyStrip (cur.drop contentStart)
  let content :=
    if containsSub criticalMarker content0 then
      pyStrip (content0.take ((pyFind criticalMarker content0 0).getD 0))
    else content0
  let task :=
    match pyFind "Original user task:".toList cur 0 with
    | some ts0 =>
      let taskStart := ts0 + "Original user task:".toList.length
      match pyFind "\n\n".toList cur taskStart with
      | some te =>
        if te > 0 then pyStrip ((cur.drop taskStart).take (te - taskStart)) else userInput
      | none => userInput
    | none => userInput
  (task, content)

/-- The chosen sandbox code (lines 229-232): the extracted block if it still
contains a solve() marker, otherwise the raw plan. -/
def codeOf (env : LoopEnv) (plan : List Char) : List Char :=
  let code := env.extract plan
  if hasSolvePlan code then code else plan

/-- One iteration of the inner `while lifelines_left >= 0` loop; the fuel is
`lifelines_left + 1`, so fuel `0` is the loop exit with the step failed. -/
def stepBody (env : LoopEnv) (userInput : List Char) (histCtx : Option (List Char))
    (stepNum : Nat) :
    Option (List Char) → Nat → Nat → StepOut × List Ev
  | override, count, 0 => (.cont override count, [])
  | override, count, n + 1 =>
    let cur := effectiveInput override userInput
    if !env.hasTools cur then
      -- lines 53-136: no tools selected — historical search + direct LLM answer
      let hist :=
        match env.searchHist userInput with
        | some data =>
          if !data.isEmpty then joinWith "\n\n".toList ((data.take 3).map fmtLoopConv) else []
        | none => []
      match env.genText (fallbackPrompt cur hist) with
      | some t => (.ret ⟨"done".toList, ensureFinal t⟩, [.fallbackAnswered])
      | none =>
        (.ret ⟨"error".toList,
          "FINAL_ANSWER: I apologize, but I encountered an error while processing your request.".toList⟩,
         [.fallbackAnswered])
    else
      -- lines 143-196: carried content — direct LLM analysis, bypassing planning
      let directOut :=
        if containsSub carriedMarker cur then
          let tc := extractCarried cur userInput
          match env.genText (analysisPrompt tc.1 (truncContent tc.2)) with
          | some t => some (ensureFinal t)
          | none => none  -- exception: fall through to normal planning (line 194)
        else none
      match directOut with
      | some ans => (.ret ⟨"done".toList, ans⟩, [.directAnalyzed])
      | none =>
        let plan := env.plan stepNum (planInputOf histCtx cur)
        if hasSolvePlan plan then
          let result := pyStrip (env.sandbox (codeOf env plan))
          if startsW finalMarker result then
            (.ret ⟨"done".toList, result⟩, [.planned])
          else if startsW fprMarker result then
            let content := pyStrip ((pySplitOn fprMarker result).getD 1 [])
            if count + 1 > 1 then
              match env.genText (analysisPrompt userInput (truncContent content)) with
              | some t => (.ret ⟨"done".toList, ensureFinal t⟩, [.planned, .escalatedNoPlan])
              | none =>
                -- LLM fallback failed: continue with the normal forwarding flow
                (.cont (some (overrideMsg userInput content)) (count + 1),
                 [.planned, .fprForwarded])
            else
              (.cont (some (overrideMsg userInput content)) (count + 1),
               [.planned, .fprForwarded])
          else if startsW "[sandbox error:".toList result then
            let r := stepBody env userInput histCtx stepNum override count n
            (r.1, .planned :: r.2)
          else
            -- implicit final answer (lines 330-354)
            if !containsSub fprMarker result then
              (.ret ⟨"done".toList, "FINAL_ANSWER: ".toList ++ result⟩, [.planned])
            else
              let r := stepBody env userInput histCtx stepNum override count n
              (r.1, .planned :: r.2)
        else
          -- invalid plan: consume a lifeline and retry (lines 355-358)
          let r := stepBody env userInput histCtx stepNum override count n
          (r.1, .planned :: r.2)

/-- The sentinel answer at line 361. -/
def maxStepsAnswer : List Char := "FINAL_ANSWER: [Max steps reached]".toList

/-- The outer `for step in range(max_steps)` loop; mutable turn state
(`user_input_override`, `further_processing_count`) is threaded through. -/
def runOuter (env : LoopEnv) (userInput : List Char) (histCtx : Option (List Char))
    (maxLifelines : Nat) :
    Option (List Char) → Nat → Nat → Nat → LoopResult × List Ev
  | _, _, _, 0 => (⟨"done".toList, maxStepsAnswer⟩, [])
  | override, count, stepNum, r + 1 =>
    match stepBody env userInput histCtx stepNum override count (maxLifelines + 1) with
    | (.ret res, evs) => (res, evs)
    | (.cont ov2 c2, evs) =>
      let next := runOuter env userInput histCtx maxLifelines ov2 c2 (stepNum + 1) r
      (next.1, evs ++ next.2)

/-- `AgentLoop.run`. -/
def runLoop (env : LoopEnv) (userInput : List Char) (histCtx : Option (List Char))
    (maxSteps maxLifelines : Nat) : LoopResult × List Ev :=
  runOuter env userInput histCtx maxLifelines none 0 1 maxSteps

end Agent

namespace Agent

/-! ### Guardrail stage lemmas -/

theorem rh1_blocked (s : GState) : (rh1 s).blocked = s.blocked := rfl

theorem rh2_blocked (s : GState) : (rh2 s).blocked = s.blocked := by
  unfold rh2; split <;> rfl

theorem rh3_blocked (s : GState) : (rh3 s).blocked = s.blocked := by
  simp only [rh3]; split <;> rfl

theorem rh4_blocked (s : GState) : (rh4 s).blocked = s.blocked := by
  unfold rh4; split <;> rfl

theorem rh5_blocked (s : GState) : (rh5 s).blocked = s.blocked := by
  unfold rh5; split <;> rfl

theorem urlStepR_blocked (acc : GState) (u : List Char) :
    (urlStepR acc u).blocked = acc.blocked := by
  unfold urlStepR; split <;> rfl

theorem foldl_urlStepR_blocked (us : List (List Char)) :
    ∀ acc : GState, (us.foldl urlStepR acc).blocked = acc.blocked := by
  induction us with
  | nil => intro acc; rfl
  | cons u t ih => intro acc; simp only [List.foldl_cons]; rw [ih, urlStepR_blocked]

theorem rh6_blocked (s : GState) : (rh6 s).blocked = s.blocked :=
  foldl_urlStepR_blocked _ s

theorem rh7_blocked (s : GState) : (rh7 s).blocked = s.blocked := by
  unfold rh7; split <;> rfl

theorem rh8_blocked (n : Nat) (s : GState) : (rh8 n s).blocked = s.blocked := by
  unfold rh8; split <;> rfl

theorem rh9_blocked (s : GState) : (rh9 s).blocked = s.blocked := by
  unfold rh9; split <;> rfl

theorem rh10_blocked (s : GState) : (rh10 s).blocked = s.blocked := by
  unfold rh10; split <;> rfl

theorem rh4_warn_mono (s : GState) (w : List Char) (h : w ∈ s.warnings) :
    w ∈ (rh4 s).warnings := by
  unfold rh4; split <;> simp [h]

theorem rh5_warn_mono (s : GState) (w : List Char) (h : w ∈ s.warnings) :
    w ∈ (rh5 s).warnings := by
  unfold rh5; split <;> simp [h]

theorem urlStepR_warn_mono (acc : GState) (u w : List Char) (h : w ∈ acc.warnings) :
    w ∈ (urlStepR acc u).warnings := by
  unfold urlStepR; split <;> simp [h]

theorem foldl_urlStepR_warn_mono (us : List (List Char)) :
    ∀ (acc : GState) (w : List Char), w ∈ acc.warnings → w ∈ (us.foldl urlStepR acc).warnings := by
  induction us with
  | nil => intro acc w h; exact h
  | cons u t ih =>
    intro acc w h
    simp only [List.foldl_cons]
    exact ih _ _ (urlStepR_warn_mono acc u w h)

theorem rh6_warn_mono (s : GState) (w : List Char) (h : w ∈ s.warnings) :
    w ∈ (rh6 s).warnings :=
  foldl_urlStepR_warn_mono _ s w h

theorem rh7_warn_mono (s : GState) (w : List Char) (h : w ∈ s.warnings) :
    w ∈ (rh7 s).warnings := by
  unfold rh7; split <;> simp [h]

theorem rh8_warn_mono (n : Nat) (s : GState) (w : List Char) (h : w ∈ s.warnings) :
    w ∈ (rh8 n s).warnings := by
  unfold rh8; split <;> simp [h]

theorem rh9_warn_mono (s : GState) (w : List Char) (h : w ∈ s.warnings) :
    w ∈ (rh9 s).warnings := by
  unfold rh9; split <;> simp [h]

theorem rh10_warn_mono (s : GState) (w : List Char) (h : w ∈ s.warnings) :
    w ∈ (rh10 s).warnings := by
  unfold rh10; split <;> simp [h]

end Agent

namespace Agent

theorem qh4_detect (s : GState) (h : containsSqlInjection s.text = true) :
    (qh4 s).blocked = true ∧ (qh4 s).reason.isSome = true := by
  unfold qh4; rw [if_pos h]; exact ⟨rfl, rfl⟩

theorem qh5_detect (s : GState) (h : containsCommandInjection s.text = true) :
    (qh5 s).blocked = true ∧ (qh5 s).reason.isSome = true := by
  unfold qh5; rw [if_pos h]; exact ⟨rfl, rfl⟩

theorem qh5_mono (s : GState) (hb : s.blocked = true) (hr : s.reason.isSome = true) :
    (qh5 s).blocked = true ∧ (qh5 s).reason.isSome = true := by
  unfold qh5; split <;> simp [hb, hr]

theorem qh6_mono (s : GState) (hb : s.blocked = true) (hr : s.reason.isSome = true) :
    (qh6 s).blocked = true ∧ (qh6 s).reason.isSome = true := by
  unfold qh6; exact ⟨hb, hr⟩

theorem qh7_mono (s : GState) (hb : s.blocked = true) (hr : s.reason.isSome = true) :
    (qh7 s).blocked = true ∧ (qh7 s).reason.isSome = true := by
  unfold qh7; split <;> simp [hb, hr]

theorem qh8_mono (n : Nat) (s : GState) (hb : s.blocked = true) (hr : s.reason.isSome = true) :
    (qh8 n s).blocked = true ∧ (qh8 n s).reason.isSome = true := by
  unfold qh8; split <;> simp [hb, hr]

theorem qh9_mono (s : GState) (hb : s.blocked = true) (hr : s.reason.isSome = true) :
    (qh9 s).blocked = true ∧ (qh9 s).reason.isSome = true := by
  unfold qh9; split <;> simp [hb, hr]

theorem qh10_mono (s : GState) (hb : s.blocked = true) (hr : s.reason.isSome = true) :
    (qh10 s).blocked = true ∧ (qh10 s).reason.isSome = true := by
  unfold qh10; split <;> simp [hb, hr]

/-- The state after check_query heuristics 4-10 stays blocked with a set
reason once the injection stage has blocked. -/
theorem qtail_mono (origLen : Nat) (s : GState)
    (hb : s.blocked = true) (hr : s.reason.isSome = true) :
    (qh10 (qh9 (qh8 origLen (qh7 (qh6 (qh5 s)))))).blocked = true ∧
    (qh10 (qh9 (qh8 origLen (qh7 (qh6 (qh5 s)))))).reason.isSome = true := by
  have h5 := qh5_mono s hb hr
  have h6 := qh6_mono _ h5.1 h5.2
  have h7 := qh7_mono _ h6.1 h6.2
  have h8 := qh8_mono origLen _ h7.1 h7.2
  have h9 := qh9_mono _ h8.1 h8.2
  exact qh10_mono _ h9.1 h9.2

theorem rh4_detect (s : GState) (h : containsSqlInjection s.text = true) :
    "SQL injection pattern detected in result (may be false positive)".toList
      ∈ (rh4 s).warnings := by
  unfold rh4; rw [if_pos h]; simp

theorem rh5_detect (s : GState) (h : containsCommandInjection s.text = true) :
    "Command injection pattern detected in result (may be false positive in document content)".toList
      ∈ (rh5 s).warnings := by
  unfold rh5; rw [if_pos h]; simp

theorem rh4_text (s : GState) : (rh4 s).text = s.text := by
  unfold rh4; split <;> rfl

theorem rh5_text (s : GState) : (rh5 s).text = s.text := by
  unfold rh5; split <;> rfl

end Agent

namespace Agent

/-- C10: For every input text, the outbound check (check_result) returns a
verdict with blocked=false and passed=true: no outbound heuristic can block,
so the outbound gate only sanitizes and accumulates warnings, never withholds
an answer. -/
theorem outbound_never_blocks (r : List Char) :
    (check_result r).blocked = false ∧ (check_result r).passed = true := by
  have h : (rh10 (rh9 (rh8 r.length
      (rh7 (rh6 (rh5 (rh4 (rh3 (rh2 (rh1 (gInit r))))))))))).blocked = false := by
    rw [rh10_blocked, rh9_blocked, rh8_blocked, rh7_blocked, rh6_blocked, rh5_blocked,
        rh4_blocked, rh3_blocked, rh2_blocked, rh1_blocked]
    rfl
  constructor
  · exact h
  · show (!(rh10 (rh9 (rh8 r.length
      (rh7 (rh6 (rh5 (rh4 (rh3 (rh2 (rh1 (gInit r))))))))))).blocked) = true
    rw [h]
    rfl

end Agent

namespace Agent

/-- C2 (amended): when check_query's injection stage detects an SQL-like or
command-shell-like pattern, the inbound verdict has blocked=true and a
non-None reason (the reason names the injection pattern unless a later
blocking heuristic — sensitive path, script injection — also fires and
overwrites it; see the counterexample); on the outbound side, detection at the
same stage yields blocked=false with only an appended warning, the injection
heuristics leaving the text unchanged. -/
theorem injection_inbound_blocks_outbound_warns (q r : List Char)
    (hq : containsSqlInjection (qStage3 q).text = true ∨
          containsCommandInjection (qh4 (qStage3 q)).text = true)
    (hr : containsSqlInjection (rStage3 r).text = true ∨
          containsCommandInjection (rh4 (rStage3 r)).text = true) :
    (check_query q).blocked = true ∧ (check_query q).reason.isSome = true ∧
    (check_result r).blocked = false ∧ (check_result r).passed = true ∧
    ("SQL injection pattern detected in result (may be false positive)".toList
        ∈ (check_result r).warnings ∨
     "Command injection pattern detected in result (may be false positive in document content)".toList
        ∈ (check_result r).warnings) ∧
    (rh5 (rh4 (rStage3 r))).text = (rStage3 r).text := by
  have hin : (qh10 (qh9 (qh8 q.length (qh7 (qh6 (qh5 (qh4 (qStage3 q)))))))).blocked = true ∧
      (qh10 (qh9 (qh8 q.length (qh7 (qh6 (qh5 (qh4 (qStage3 q)))))))).reason.isSome = true := by
    cases hq with
    | inl h =>
      have h4 := qh4_detect _ h
      exact qtail_mono q.length _ h4.1 h4.2
    | inr h =>
      have h5 := qh5_detect _ h
      have h6 := qh6_mono _ h5.1 h5.2
      have h7 := qh7_mono _ h6.1 h6.2
      have h8 := qh8_mono q.length _ h7.1 h7.2
      have h9 := qh9_mono _ h8.1 h8.2
      exact qh10_mono _ h9.1 h9.2
  have hblocked : (rh10 (rh9 (rh8 r.length
      (rh7 (rh6 (rh5 (rh4 (rh3 (rh2 (rh1 (gInit r))))))))))).blocked = false := by
    rw [rh10_blocked, rh9_blocked, rh8_blocked, rh7_blocked, rh6_blocked, rh5_blocked,
        rh4_blocked, rh3_blocked, rh2_blocked, rh1_blocked]
    rfl
  have hwarn :
      "SQL injection pattern detected in result (may be false positive)".toList
        ∈ (rh10 (rh9 (rh8 r.length (rh7 (rh6 (rh5 (rh4 (rStage3 r)))))))).warnings ∨
      "Command injection pattern detected in result (may be false positive in document content)".toList
        ∈ (rh10 (rh9 (rh8 r.length (rh7 (rh6 (rh5 (rh4 (rStage3 r)))))))).warnings := by
    cases hr with
    | inl h =>
      refine Or.inl ?_
      exact rh10_warn_mono _ _ (rh9_warn_mono _ _ (rh8_warn_mono r.length _ _
        (rh7_warn_mono _ _ (rh6_warn_mono _ _ (rh5_warn_mono _ _ (rh4_detect _ h))))))
    | inr h =>
      refine Or.inr ?_
      exact rh10_warn_mono _ _ (rh9_warn_mono _ _ (rh8_warn_mono r.length _ _
        (rh7_warn_mono _ _ (rh6_warn_mono _ _ (rh5_detect _ h)))))
  refine ⟨hin.1, hin.2, hblocked, ?_, hwarn, ?_⟩
  · show (!(rh10 (rh9 (rh8 r.length
      (rh7 (rh6 (rh5 (rh4 (rh3 (rh2 (rh1 (gInit r))))))))))).blocked) = true
    rw [hblocked]
    rfl
  · rw [rh5_text, rh4_text]

/-- C2 counterexample: on "SELECT * FROM /etc/passwd" an SQL injection
pattern is detected at the inbound injection stage, yet check_query's reason
is the sensitive-file-path message — later blocking heuristics overwrite the
reason, so the verdict does not name the injection pattern as the claim
states. -/
theorem injection_reason_overwritten_cex :
    containsSqlInjection (qStage3 "SELECT * FROM /etc/passwd".toList).text = true ∧
    (check_query "SELECT * FROM /etc/passwd".toList).blocked = true ∧
    (check_query "SELECT * FROM /etc/passwd".toList).reason =
      some "Sensitive file path detected in query".toList ∧
    some "Sensitive file path detected in query".toList ≠
      some "SQL injection pattern detected in query".toList ∧
    some "Sensitive file path detected in query".toList ≠
      some "Command injection pattern detected in query".toList ∧
    containsSub "injection".toList "Sensitive file path detected in query".toList = false := by
  refine ⟨by decide, by decide, by decide, by decide, by decide, by decide⟩

/-- C2 witness: the spec's own example query triggers the amended theorem;
hypotheses discharged by evaluation. -/
theorem injection_inbound_blocks_outbound_warns_witness :
    (containsSqlInjection (qStage3 "SELECT * FROM users WHERE id=1 OR 1=1".toList).text = true ∨
     containsCommandInjection (qh4 (qStage3 "SELECT * FROM users WHERE id=1 OR 1=1".toList)).text = true) ∧
    ((check_query "SELECT * FROM users WHERE id=1 OR 1=1".toList).blocked = true ∧
     (check_query "SELECT * FROM users WHERE id=1 OR 1=1".toList).reason.isSome = true ∧
     (check_result "SELECT * FROM users WHERE id=1 OR 1=1".toList).blocked = false ∧
     (check_result "SELECT * FROM users WHERE id=1 OR 1=1".toList).passed = true ∧
     ("SQL injection pattern detected in result (may be false positive)".toList
         ∈ (check_result "SELECT * FROM users WHERE id=1 OR 1=1".toList).warnings ∨
      "Command injection pattern detected in result (may be false positive in document content)".toList
         ∈ (check_result "SELECT * FROM users WHERE id=1 OR 1=1".toList).warnings) ∧
     (rh5 (rh4 (rStage3 "SELECT * FROM users WHERE id=1 OR 1=1".toList))).text =
       (rStage3 "SELECT * FROM users WHERE id=1 OR 1=1".toList).text) ∧
    (check_query "SELECT * FROM users WHERE id=1 OR 1=1".toList).reason =
      some "SQL injection pattern detected in query".toList :=
  ⟨Or.inl (by decide),
   injection_inbound_blocks_outbound_warns _ _ (Or.inl (by decide)) (Or.inl (by decide)),
   by decide⟩

end Agent

namespace Agent

/-- C5: when the outbound PII stage detects both an SSN and an email match,
check_result sanitizes via `_sanitize_pii` (SSN → "[SSN REDACTED]", emails
rewritten to keep only the domain) and appends the PII warning naming the
detected types; the verdict never blocks. -/
theorem outbound_pii_redaction (r : List Char)
    (hs : "SSN".toList ∈ detectPii (rh2 (rh1 (gInit r))).text)
    (he : "EMAIL".toList ∈ detectPii (rh2 (rh1 (gInit r))).text) :
    ("PII detected in result: ".toList ++
        joinWith ", ".toList (detectPii (rh2 (rh1 (gInit r))).text))
      ∈ (check_result r).warnings ∧
    (rStage3 r).text = sanitizePii (rh2 (rh1 (gInit r))).text ∧
    (check_result r).blocked = false := by
  have hne : (detectPii (rh2 (rh1 (gInit r))).text).isEmpty = false := by
    cases h : detectPii (rh2 (rh1 (gInit r))).text with
    | nil => rw [h] at hs; exact absurd hs (List.not_mem_nil _)
    | cons a t => rfl
  have hcond : (!(detectPii (rh2 (rh1 (gInit r))).text).isEmpty) = true := by
    rw [hne]; rfl
  have hw3 : ("PII detected in result: ".toList ++
      joinWith ", ".toList (detectPii (rh2 (rh1 (gInit r))).text))
        ∈ (rh3 (rh2 (rh1 (gInit r)))).warnings := by
    unfold rh3
    rw [if_pos hcond]
    simp
  have ht3 : (rh3 (rh2 (rh1 (gInit r)))).text =
      sanitizePii (rh2 (rh1 (gInit r))).text := by
    unfold rh3
    rw [if_pos hcond]
  have hblocked : (rh10 (rh9 (rh8 r.length
      (rh7 (rh6 (rh5 (rh4 (rh3 (rh2 (rh1 (gInit r))))))))))).blocked = false := by
    rw [rh10_blocked, rh9_blocked, rh8_blocked, rh7_blocked, rh6_blocked, rh5_blocked,
        rh4_blocked, rh3_blocked, rh2_blocked, rh1_blocked]
    rfl
  refine ⟨?_, ht3, hblocked⟩
  exact rh10_warn_mono _ _ (rh9_warn_mono _ _ (rh8_warn_mono r.length _ _
    (rh7_warn_mono _ _ (rh6_warn_mono _ _ (rh5_warn_mono _ _ (rh4_warn_mono _ _ hw3))))))

/-- C5 witness: the spec's outbound example, fully evaluated — the SSN is
replaced by the redaction marker, the email keeps only its domain, and the
warning names both detected types. -/
theorem outbound_pii_redaction_witness :
    ("SSN".toList ∈ detectPii (rh2 (rh1 (gInit "Contact John at john@x.com, SSN 123-45-6789".toList))).text) ∧
    ("EMAIL".toList ∈ detectPii (rh2 (rh1 (gInit "Contact John at john@x.com, SSN 123-45-6789".toList))).text) ∧
    (("PII detected in result: ".toList ++
        joinWith ", ".toList (detectPii (rh2 (rh1 (gInit "Contact John at john@x.com, SSN 123-45-6789".toList))).text))
      ∈ (check_result "Contact John at john@x.com, SSN 123-45-6789".toList).warnings ∧
     (rStage3 "Contact John at john@x.com, SSN 123-45-6789".toList).text =
       sanitizePii (rh2 (rh1 (gInit "Contact John at john@x.com, SSN 123-45-6789".toList))).text ∧
     (check_result "Contact John at john@x.com, SSN 123-45-6789".toList).blocked = false) ∧
    (check_result "Contact John at john@x.com, SSN 123-45-6789".toList).sanitized_content =
      "Contact John at [EMAIL: x.com], SSN [SSN REDACTED]".toList ∧
    (check_result "Contact John at john@x.com, SSN 123-45-6789".toList).warnings =
      ["PII detected in result: SSN, EMAIL".toList] :=
  ⟨by decide, by decide,
   outbound_pii_redaction _ (by decide) (by decide),
   by decide, by decide⟩

end Agent

namespace Agent

/-! ### Semantic Memory lemmas and claims -/

theorem length_insertByDist (x : Nat × Int) (l : List (Nat × Int)) :
    (insertByDist x l).length = l.length + 1 := by
  induction l with
  | nil => rfl
  | cons y t ih => unfold insertByDist; split <;> simp [ih]

theorem length_sortByDist (l : List (Nat × Int)) :
    (sortByDist l).length = l.length := by
  induction l with
  | nil => rfl
  | cons y t ih => simp only [sortByDist, List.foldr_cons]
                   rw [length_insertByDist]
                   simp only [sortByDist] at ih
                   rw [ih, List.length_cons]

theorem filterMap_len_le {α β : Type} (f : α → Option β) (l : List α) :
    (l.filterMap f).length ≤ l.length := by
  induction l with
  | nil => exact Nat.le_refl 0
  | cons a t ih =>
    rw [List.filterMap_cons]
    cases f a with
    | none => exact Nat.le_trans ih (Nat.le_succ _)
    | some b => simpa using ih

/-- C3: a completed insertion preserves `len(metadata) == index.ntotal`, and
the equality survives a reload of the persisted files (simulated restart via
`load_index`).  "Completed" excludes the caught dimension-mismatch exception:
the embedding must fit the existing index's dimensionality (trivially true on
first insert). -/
theorem insert_preserves_sync (svc : List Char → Option (List Int))
    (st : IndexerState) (fs : FS)
    (sid q a : List Char) (tc : Option (List (List Char))) (ts : Int)
    (hpre : st.metadata.length = get_conversation_count st)
    (hdim : ∀ i, st.index = some i →
      (get_embedding svc (searchableText q a tc)).length = i.dim) :
    ((index_conversation svc st fs sid q a tc ts).1).metadata.length =
      get_conversation_count (index_conversation svc st fs sid q a tc ts).1 ∧
    (load_index (index_conversation svc st fs sid q a tc ts).2).metadata.length =
      get_conversation_count (load_index (index_conversation svc st fs sid q a tc ts).2) := by
  cases hst : st.index with
  | none =>
    have hcnt : get_conversation_count st = 0 := by
      unfold get_conversation_count; rw [hst]
    rw [hcnt] at hpre
    simp only [index_conversation, hst]
    rw [if_neg (by simp)]
    simp [get_conversation_count, load_index, save_index, IndexData.ntotal, hpre]
  | some i =>
    have hd := hdim i hst
    have hcnt : get_conversation_count st = i.ntotal := by
      unfold get_conversation_count; rw [hst]
    rw [hcnt] at hpre
    simp only [index_conversation, hst]
    rw [if_neg (by simp [hd])]
    simp [get_conversation_count, load_index, save_index, IndexData.ntotal, hpre]

/-- C3 witness: first insert into a fresh memory with a failing embedding
service; both the in-memory and the reloaded structures agree. -/
theorem insert_preserves_sync_witness :
    (IndexerState.mk none []).metadata.length =
      get_conversation_count (IndexerState.mk none []) ∧
    (((index_conversation (fun _ => none) (IndexerState.mk none []) (FS.mk none none)
        "s1".toList "q".toList "a".toList none 0).1).metadata.length =
      get_conversation_count (index_conversation (fun _ => none) (IndexerState.mk none [])
        (FS.mk none none) "s1".toList "q".toList "a".toList none 0).1 ∧
     (load_index (index_conversation (fun _ => none) (IndexerState.mk none [])
        (FS.mk none none) "s1".toList "q".toList "a".toList none 0).2).metadata.length =
      get_conversation_count (load_index (index_conversation (fun _ => none)
        (IndexerState.mk none []) (FS.mk none none) "s1".toList "q".toList "a".toList none 0).2)) :=
  ⟨by decide,
   insert_preserves_sync (fun _ => none) (IndexerState.mk none []) (FS.mk none none)
     "s1".toList "q".toList "a".toList none 0 (by decide)
     (fun i hi => by simp at hi)⟩

/-- C8: an embedding-service failure does not propagate: `get_embedding`
returns the fixed 768-dimensional zero vector, and an insert into a fresh
Semantic Memory still completes (both structures grow by one). -/
theorem embedding_failure_zero_vector (svc : List Char → Option (List Int))
    (text : List Char) (hfail : svc text = none)
    (st : IndexerState) (fs : FS)
    (sid q a : List Char) (tc : Option (List (List Char))) (ts : Int)
    (hfail2 : svc (searchableText q a tc) = none)
    (hidx : st.index = none) :
    get_embedding svc text = List.replicate 768 0 ∧
    (get_embedding svc text).length = 768 ∧
    ((index_conversation svc st fs sid q a tc ts).1).metadata.length =
      st.metadata.length + 1 ∧
    get_conversation_count (index_conversation svc st fs sid q a tc ts).1 =
      get_conversation_count st + 1 := by
  have h1 : get_embedding svc text = List.replicate 768 0 := by
    unfold get_embedding; rw [hfail]
  refine ⟨h1, by rw [h1]; simp, ?_, ?_⟩
  · simp only [index_conversation, hidx]
    rw [if_neg (by simp)]
    simp
  · simp only [index_conversation, get_conversation_count, hidx]
    rw [if_neg (by simp)]
    simp [IndexData.ntotal]

/-- C8 witness. -/
theorem embedding_failure_zero_vector_witness :
    ((fun (_ : List Char) => (none : Option (List Int))) "hello".toList = none) ∧
    (get_embedding (fun _ => none) "hello".toList = List.replicate 768 0 ∧
     (get_embedding (fun _ => none) "hello".toList).length = 768 ∧
     ((index_conversation (fun _ => none) (IndexerState.mk none []) (FS.mk none none)
        "s1".toList "q".toList "a".toList none 0).1).metadata.length =
       (IndexerState.mk none []).metadata.length + 1 ∧
     get_conversation_count (index_conversation (fun _ => none) (IndexerState.mk none [])
        (FS.mk none none) "s1".toList "q".toList "a".toList none 0).1 =
       get_conversation_count (IndexerState.mk none []) + 1) :=
  ⟨rfl,
   embedding_failure_zero_vector (fun _ => none) "hello".toList rfl
     (IndexerState.mk none []) (FS.mk none none)
     "s1".toList "q".toList "a".toList none 0 rfl rfl⟩

end Agent

namespace Agent

/-- C9: search on an empty memory (no index, or zero records) returns the
empty list for any query and k; a populated memory yields at most
min(k, record count) hits; an internal failure (modelled: the query embedding
does not fit the index dimensionality, making `index.search` raise inside the
`try`) also yields the empty list rather than an error. -/
theorem search_safe_behavior (svc : List Char → Option (List Int))
    (st : IndexerState) (q : List Char) (k : Nat) :
    ((st.index = none ∨ get_conversation_count st = 0) → searchConv svc st q k = []) ∧
    (searchConv svc st q k).length ≤ min k (get_conversation_count st) ∧
    (∀ i, st.index = some i → (get_embedding svc q).length ≠ i.dim →
      searchConv svc st q k = []) := by
  cases hst : st.index with
  | none =>
    refine ⟨fun _ => ?_, ?_, fun i hi => ?_⟩
    · simp [searchConv, hst]
    · simp [searchConv, hst]
    · exact Option.noConfusion hi
  | some idx =>
    have hcnt : get_conversation_count st = idx.ntotal := by
      unfold get_conversation_count; rw [hst]
    by_cases h0 : idx.ntotal = 0
    · refine ⟨fun _ => ?_, ?_, fun i hi hd => ?_⟩
      · simp [searchConv, hst, h0]
      · simp [searchConv, hst, h0]
      · simp [searchConv, hst, h0]
    · have hempty : ¬((some idx : Option IndexData) = none ∨ get_conversation_count st = 0) := by
        rw [hcnt]
        rintro (hc | hc)
        · exact Option.noConfusion hc
        · exact h0 hc
      by_cases hd : (get_embedding svc q).length = idx.dim
      · have heq : searchConv svc st q k =
            (faissSearch idx (get_embedding svc q) (min k idx.ntotal)).filterMap
              (fun p => if p.1 < st.metadata.length then
                  some { meta := st.metadata.getD p.1 default, similarity_distance := p.2 }
                else none) := by
          simp only [searchConv, hst]
          rw [if_neg h0, if_neg (not_not_intro hd)]
        have hnt : idx.ntotal = idx.vecs.length := rfl
        have hfa : (faissSearch idx (get_embedding svc q) (min k idx.ntotal)).length =
            min k idx.ntotal := by
          unfold faissSearch
          rw [List.length_take, length_sortByDist, List.length_map, List.enum_length, ← hnt]
          omega
        refine ⟨fun hc => absurd hc hempty, ?_, fun i hi hdm => ?_⟩
        · rw [heq, hcnt]
          exact Nat.le_trans (filterMap_len_le _ _) (Nat.le_of_eq hfa)
        · injection hi with h
          subst h
          exact absurd hd hdm
      · have heq : searchConv svc st q k = [] := by
          simp only [searchConv, hst]
          rw [if_neg h0, if_pos hd]
        refine ⟨fun hc => absurd hc hempty, ?_, fun _ _ _ => heq⟩
        rw [heq]
        exact Nat.zero_le _

/-- C9 witness: an empty memory, and a one-record memory with a
dimension-mismatched query embedding, both yield no hits; the length bound
holds at the one-record instance. -/
theorem search_safe_behavior_witness :
    (searchConv (fun _ => none) (IndexerState.mk none []) "q".toList 5 = []) ∧
    ((searchConv (fun _ => none)
        (IndexerState.mk (some (IndexData.mk 3 [[1, 2, 3]]))
          [MetaEntry.mk "s".toList "q".toList "a".toList [] 0 0]) "q".toList 5).length ≤
      min 5 (get_conversation_count
        (IndexerState.mk (some (IndexData.mk 3 [[1, 2, 3]]))
          [MetaEntry.mk "s".toList "q".toList "a".toList [] 0 0]))) ∧
    (searchConv (fun _ => none)
        (IndexerState.mk (some (IndexData.mk 3 [[1, 2, 3]]))
          [MetaEntry.mk "s".toList "q".toList "a".toList [] 0 0]) "q".toList 5 = []) :=
  ⟨(search_safe_behavior (fun _ => none) (IndexerState.mk none []) "q".toList 5).1
     (Or.inl rfl),
   (search_safe_behavior (fun _ => none)
     (IndexerState.mk (some (IndexData.mk 3 [[1, 2, 3]]))
       [MetaEntry.mk "s".toList "q".toList "a".toList [] 0 0]) "q".toList 5).2.1,
   (search_safe_behavior (fun _ => none)
     (IndexerState.mk (some (IndexData.mk 3 [[1, 2, 3]]))
       [MetaEntry.mk "s".toList "q".toList "a".toList [] 0 0]) "q".toList 5).2.2
     (IndexData.mk 3 [[1, 2, 3]]) rfl (by decide)⟩

end Agent

namespace Agent

/-! ### Historical Pre-Check claims -/

theorem startsW_cons_head (c : Char) (p s : List Char) (h : startsW (c :: p) s = true) :
    ∃ t, s = c :: t := by
  cases s with
  | nil => simp [startsW, List.isPrefixOf] at h
  | cons x t =>
    simp only [startsW, List.isPrefixOf, Bool.and_eq_true, beq_iff_eq] at h
    exact ⟨t, by rw [h.1]⟩

theorem startsW_cons_ne (c1 c2 : Char) (p1 p2 s : List Char)
    (h : startsW (c1 :: p1) s = true) (hne : (c2 == c1) = false) :
    startsW (c2 :: p2) s = false := by
  obtain ⟨t, rfl⟩ := startsW_cons_head c1 p1 s h
  simp only [startsW, List.isPrefixOf, hne, Bool.false_and]

/-- C6: a HAS_CONTEXT judgment whose summary contains one of the fixed
negation phrases is reclassified as NO_CONTEXT: can_answer=false,
has_context=false, no context carried forward. -/
theorem hedged_context_reclassified
    (data : List ConvRec) (llm : List Char → Option (List Char))
    (user_input resp0 ind : List Char)
    (hdata : data.isEmpty = false)
    (hitems : (contextItems data).isEmpty = false)
    (hllm : llm (decisionPromptHC user_input
      (joinWith "\n\n".toList (contextItems data))) = some resp0)
    (hhc : startsW "HAS_CONTEXT:".toList (pyStrip resp0) = true)
    (hneg : ind ∈ negative_indicators)
    (hind : containsSub ind
      (lowerL (pyStrip (pyReplace "HAS_CONTEXT:".toList [] (pyStrip resp0)))) = true) :
    check_historical_conversations (SearchOut.ok data) llm user_input =
      { can_answer := false, has_context := some false } := by
  have hnf : startsW "FINAL_ANSWER:".toList (pyStrip resp0) = false :=
    startsW_cons_ne 'H' 'F' _ _ _ hhc (by decide)
  have hany : negative_indicators.any
      (fun i => containsSub i
        (lowerL (pyStrip (pyReplace "HAS_CONTEXT:".toList [] (pyStrip resp0))))) = true :=
    List.any_eq_true.mpr ⟨ind, hneg, hind⟩
  simp only [check_historical_conversations, hdata, hitems, hllm, Bool.false_eq_true,
    if_false, hnf, hhc, if_true, hany]

/-- C6 witness. -/
theorem hedged_context_reclassified_witness :
    ((["does not contain"].map String.toList).get? 0 = some "does not contain".toList) ∧
    check_historical_conversations
      (SearchOut.ok [ConvRec.mk "q1".toList "a1".toList])
      (fun _ => some "HAS_CONTEXT: the history does not contain the answer".toList)
      "u".toList =
      { can_answer := false, has_context := some false } :=
  ⟨rfl,
   hedged_context_reclassified
     [ConvRec.mk "q1".toList "a1".toList]
     (fun _ => some "HAS_CONTEXT: the history does not contain the answer".toList)
     "u".toList
     "HAS_CONTEXT: the history does not contain the answer".toList
     "does not contain".toList
     (by decide) (by decide) rfl (by decide) (by decide) (by decide)⟩

theorem contextItems_foldl (l : List ConvRec) : ∀ acc : List (List Char),
    l.foldl (fun acc c => if isErrorAnswer c.final_answer then acc else acc ++ [fmtConv c]) acc
      = acc ++ (l.filter (fun c => !isErrorAnswer c.final_answer)).map fmtConv := by
  induction l with
  | nil => intro acc; simp
  | cons c t ih =>
    intro acc
    simp only [List.foldl_cons, List.filter_cons]
    by_cases h : isErrorAnswer c.final_answer
    · simp [h, ih]
    · simp [h, ih]

/-- C7: every retrieved neighbor (among the five considered) whose stored
answer matches an error marker is excluded from the judgment context, and if
no neighbor survives the filtering the disposition is NO_CONTEXT with the
LLM judgment never consulted (the result is the same for every `llm`). -/
theorem error_neighbors_excluded (data : List ConvRec) :
    contextItems data =
      ((data.take 5).filter (fun c => !isErrorAnswer c.final_answer)).map fmtConv ∧
    (((data.take 5).filter (fun c => !isErrorAnswer c.final_answer)) = [] →
      ∀ (llm : List Char → Option (List Char)) (user_input : List Char),
        check_historical_conversations (SearchOut.ok data) llm user_input =
          { can_answer := false }) := by
  have ha : contextItems data =
      ((data.take 5).filter (fun c => !isErrorAnswer c.final_answer)).map fmtConv := by
    unfold contextItems
    rw [contextItems_foldl]
    simp
  refine ⟨ha, fun hsur llm user_input => ?_⟩
  by_cases hdata : data.isEmpty
  · simp only [check_historical_conversations, hdata, if_true]
  · have hitems : (contextItems data).isEmpty = true := by
      rw [ha, hsur]
      rfl
    simp only [check_historical_conversations, Bool.not_eq_true] at hdata
    simp only [check_historical_conversations, hdata, Bool.false_eq_true, if_false,
      hitems, if_true]

/-- C7 witness: two retrieved neighbors, both error-marked (a max-steps
sentinel and an error answer); no context survives and the disposition is
NO_CONTEXT even for an `llm` that would have answered. -/
theorem error_neighbors_excluded_witness :
    (([ConvRec.mk "q1".toList "FINAL_ANSWER: [Max steps reached]".toList,
       ConvRec.mk "q2".toList "[error in tool]".toList].take 5).filter
        (fun c => !isErrorAnswer c.final_answer) = []) ∧
    check_historical_conversations
      (SearchOut.ok [ConvRec.mk "q1".toList "FINAL_ANSWER: [Max steps reached]".toList,
                     ConvRec.mk "q2".toList "[error in tool]".toList])
      (fun _ => some "FINAL_ANSWER: stale".toList) "u".toList =
      { can_answer := false } :=
  ⟨by decide,
   (error_neighbors_excluded
     [ConvRec.mk "q1".toList "FINAL_ANSWER: [Max steps reached]".toList,
      ConvRec.mk "q2".toList "[error in tool]".toList]).2 (by decide)
     (fun _ => some "FINAL_ANSWER: stale".toList) "u".toList⟩

end Agent

namespace Agent

/-! ### Task Loop claims -/

theorem startsW_cons2_ne (c d1 d2 : Char) (p1 p2 s : List Char)
    (h : startsW (c :: d1 :: p1) s = true) (hne : (d2 == d1) = false) :
    startsW (c :: d2 :: p2) s = false := by
  obtain ⟨t, rfl⟩ := startsW_cons_head c (d1 :: p1) s h
  have h2 : startsW (d1 :: p1) t = true := by
    simp only [startsW, List.isPrefixOf, Bool.and_eq_true] at h
    exact h.2
  obtain ⟨t2, rfl⟩ := startsW_cons_head d1 p1 t h2
  simp only [startsW, List.isPrefixOf, hne, Bool.false_and, Bool.and_false]

/-- C1: once a turn has already seen a FURTHER_PROCESSING_REQUIRED result
(`count ≥ 1`), a further FURTHER_PROCESSING_REQUIRED execution result makes
the loop escalate: the carried-over content is analyzed directly by the LLM
backend and the turn terminates with a FINAL_ANSWER-prefixed result,
regardless of the remaining lifelines (`n`) — and no planning happens after
the escalation (the escalation event is the last event of the turn's trace).
The loop's mutable state is reached for any `override`; the precondition
`hdirect` states that the carried-content shortcut (line 143) did not
already terminate the turn earlier in this iteration. -/
theorem fpr_second_escalates
    (env : LoopEnv) (userInput : List Char) (histCtx : Option (List Char))
    (override : Option (List Char)) (count stepNum maxLifelines r n : Nat)
    (ans : List Char)
    (hcount : 1 ≤ count)
    (htools : env.hasTools (effectiveInput override userInput) = true)
    (hdirect : containsSub carriedMarker (effectiveInput override userInput) = false ∨
      env.genText (analysisPrompt
        (extractCarried (effectiveInput override userInput) userInput).1
        (truncContent (extractCarried (effectiveInput override userInput) userInput).2)) = none)
    (hplan : hasSolvePlan
      (env.plan stepNum (planInputOf histCtx (effectiveInput override userInput))) = true)
    (hfpr : startsW fprMarker (pyStrip (env.sandbox (codeOf env
      (env.plan stepNum (planInputOf histCtx (effectiveInput override userInput)))))) = true)
    (hllm : env.genText (analysisPrompt userInput (truncContent (pyStrip
      ((pySplitOn fprMarker (pyStrip (env.sandbox (codeOf env (env.plan stepNum
        (planInputOf histCtx (effectiveInput override userInput))))))).getD 1 [])))) = some ans) :
    stepBody env userInput histCtx stepNum override count (n + 1) =
      (.ret ⟨"done".toList, ensureFinal ans⟩, [Ev.planned, Ev.escalatedNoPlan]) ∧
    runOuter env userInput histCtx maxLifelines override count stepNum (r + 1) =
      (⟨"done".toList, ensureFinal ans⟩, [Ev.planned, Ev.escalatedNoPlan]) ∧
    startsW finalMarker (ensureFinal ans) = true := by
  have hnf : startsW finalMarker (pyStrip (env.sandbox (codeOf env
      (env.plan stepNum (planInputOf histCtx (effectiveInput override userInput)))))) = false :=
    startsW_cons2_ne 'F' 'U' 'I' _ _ _ hfpr (by decide)
  have hgt : (count + 1 > 1) = True := by simp; omega
  have happ : ∀ p u : List Char, p.isPrefixOf (p ++ u) = true := fun p u =>
    List.isPrefixOf_iff_prefix.mpr (List.prefix_append p u)
  have hfin : startsW finalMarker (ensureFinal ans) = true := by
    show startsW finalMarker
      (if startsW finalMarker (pyStrip ans) = true then pyStrip ans
       else "FINAL_ANSWER: ".toList ++ pyStrip ans) = true
    by_cases h : startsW finalMarker (pyStrip ans) = true
    · rw [if_pos h]; exact h
    · rw [if_neg h]
      have hsp : "FINAL_ANSWER: ".toList = finalMarker ++ [' '] := by decide
      rw [hsp, List.append_assoc]
      exact happ _ _
  have hstep : ∀ m : Nat, stepBody env userInput histCtx stepNum override count (m + 1) =
      (.ret ⟨"done".toList, ensureFinal ans⟩, [Ev.planned, Ev.escalatedNoPlan]) := by
    intro m
    simp only [stepBody, htools, Bool.not_true, Bool.false_eq_true, if_false]
    rcases hdirect with hd | hd
    · simp only [hd, Bool.false_eq_true, if_false, hplan, if_true, hnf, hfpr, hgt,
        if_true, hllm]
    · by_cases hm : containsSub carriedMarker (effectiveInput override userInput)
      · simp only [hm, if_true, hd, hplan, hnf, hfpr, hgt, hllm, Bool.false_eq_true, if_false]
      · simp only [hm, Bool.false_eq_true, if_false, hplan, if_true, hnf, hfpr, hgt, hllm]
  refine ⟨hstep n, ?_, hfin⟩
  simp only [runOuter, hstep maxLifelines]

/-- Oracles for the C1 witness: tools always available, a valid solve() plan,
a sandbox that reports FURTHER_PROCESSING_REQUIRED, an LLM that answers. -/
def c1Env : LoopEnv :=
  { hasTools := fun _ => true,
    searchHist := fun _ => none,
    genText := fun _ => some "ANS".toList,
    plan := fun _ _ => "def solve():".toList,
    extract := fun c => c,
    sandbox := fun _ => "FURTHER_PROCESSING_REQUIRED: stuff".toList }

/-- C1 witness: with one FURTHER_PROCESSING_REQUIRED already seen
(count = 1) and three lifelines left, the next one escalates and the turn
ends in a FINAL_ANSWER. -/
theorem fpr_second_escalates_witness :
    (1 ≤ 1) ∧
    (hasSolvePlan (c1Env.plan 2 (planInputOf none (effectiveInput none "task".toList))) = true) ∧
    (startsW fprMarker (pyStrip (c1Env.sandbox (codeOf c1Env (c1Env.plan 2
      (planInputOf none (effectiveInput none "task".toList)))))) = true) ∧
    (stepBody c1Env "task".toList none 2 none 1 (3 + 1) =
      (.ret ⟨"done".toList, ensureFinal "ANS".toList⟩, [Ev.planned, Ev.escalatedNoPlan]) ∧
     runOuter c1Env "task".toList none 3 none 1 2 (4 + 1) =
      (⟨"done".toList, ensureFinal "ANS".toList⟩, [Ev.planned, Ev.escalatedNoPlan]) ∧
     startsW finalMarker (ensureFinal "ANS".toList) = true) :=
  ⟨by decide, by decide, by decide,
   fpr_second_escalates c1Env "task".toList none none 1 2 3 4 3 "ANS".toList
     (by decide) rfl (Or.inl (by decide)) (by decide) (by decide) rfl⟩

theorem stepBody_no_solve (env : LoopEnv) (userInput : List Char)
    (histCtx : Option (List Char)) (stepNum : Nat)
    (override : Option (List Char)) (count : Nat)
    (hplan : ∀ k s, hasSolvePlan (env.plan k s) = false)
    (htools : ∀ s, env.hasTools s = true)
    (hmk : containsSub carriedMarker (effectiveInput override userInput) = false) :
    ∀ fuel, (stepBody env userInput histCtx stepNum override count fuel).1 =
      StepOut.cont override count := by
  intro fuel
  induction fuel with
  | zero => rfl
  | succ m ih =>
    simp only [stepBody, htools, Bool.not_true, Bool.false_eq_true, if_false,
      hmk, hplan]
    exact ih

/-- C4: a turn in which the planner never produces an executable solve() plan
(and tools are always selected, so neither fallback shortcut fires) exhausts
all outer steps without a terminal transition and returns the fixed sentinel
"FINAL_ANSWER: [Max steps reached]".  The embedding is a total function, so
this path raises nothing: the sentinel is returned for every environment,
step budget and lifeline budget. -/
theorem max_steps_sentinel (env : LoopEnv) (userInput : List Char)
    (histCtx : Option (List Char)) (maxLifelines : Nat)
    (r count stepNum : Nat)
    (hplan : ∀ k s, hasSolvePlan (env.plan k s) = false)
    (htools : ∀ s, env.hasTools s = true)
    (hmk : containsSub carriedMarker userInput = false) :
    (runOuter env userInput histCtx maxLifelines none count stepNum r).1 =
      ⟨"done".toList, maxStepsAnswer⟩ ∧
    (runLoop env userInput histCtx r maxLifelines).1 = ⟨"done".toList, maxStepsAnswer⟩ := by
  have hmk2 : containsSub carriedMarker (effectiveInput none userInput) = false := hmk
  have aux : ∀ (rr cc ss : Nat),
      (runOuter env userInput histCtx maxLifelines none cc ss rr).1 =
        ⟨"done".toList, maxStepsAnswer⟩ := by
    intro rr
    induction rr with
    | zero => intro cc ss; rfl
    | succ m ih =>
      intro cc ss
      have hs := stepBody_no_solve env userInput histCtx ss none cc hplan htools hmk2
        (maxLifelines + 1)
      rcases hsb : stepBody env userInput histCtx ss none cc (maxLifelines + 1) with ⟨out, evs⟩
      have hout : out = StepOut.cont none cc := by
        rw [hsb] at hs
        exact hs
      subst hout
      simp only [runOuter, hsb]
      exact ih cc ss.succ
  exact ⟨aux r count stepNum, aux r 0 1⟩

/-- Oracles for the C4 witness: the planner never emits a solve() plan. -/
def c4Env : LoopEnv :=
  { hasTools := fun _ => true,
    searchHist := fun _ => none,
    genText := fun _ => some "ANS".toList,
    plan := fun _ _ => "I cannot produce a plan".toList,
    extract := fun c => c,
    sandbox := fun _ => "unused".toList }

/-- C4 witness: two steps, one lifeline each, no executable plan — the run
returns the sentinel answer. -/
theorem max_steps_sentinel_witness :
    (∀ k s, hasSolvePlan (c4Env.plan k s) = false) ∧
    (runLoop c4Env "hi".toList none 2 1).1 = ⟨"done".toList, maxStepsAnswer⟩ :=
  ⟨fun _ _ => show hasSolvePlan "I cannot produce a plan".toList = false by decide,
   (max_steps_sentinel c4Env "hi".toList none 1 2 0 1
     (fun _ _ => show hasSolvePlan "I cannot produce a plan".toList = false by decide)
     (fun _ => rfl) (by decide)).2⟩

end Agent
